import Mathlib

/-!
Verification of the dsky.rs weather client (src/lib.rs).

The development shallow-embeds the Rust source: the serde data model becomes
Lean structures, the pure formatting helpers (`get_unit`, `get_weather_icon`,
`get_current_weather_str`, the `Display` impl) become Lean functions, the
request-URL construction of `DarkskyResult::new` becomes a pure function on
the URL pieces, and serde_json (de)serialization of the model becomes
explicit parsers and serializers over a `Json` inductive.

Modelling conventions:
* Rust machine integers become `Nat`/`Int` with explicit range checks where
  serde_json enforces them (`u64`, `u16`, `u8`, `i8` deserialization fails out
  of range).
* `f32` fields and `rust_decimal::Decimal` fields are idealized as exact
  rationals (`ℚ`); JSON numbers are likewise modelled as `ℚ`.  Floating-point
  rounding on the wire is outside the shallow embedding.
* Rust's `{:.1}` float formatting rounds the exact decimal value of the float
  to one fractional digit, ties to even; `fmtFixed1` implements exactly that
  on `ℚ` (ℚ has no negative zero, which Rust would print as `-0.0`; no claim
  exercises that corner).
* Struct deserialization is modelled for JSON-object payloads (the provider's
  wire format) with first-occurrence field lookup; serde's derived visitors
  additionally reject duplicate fields, which only removes payloads from the
  domain and affects no claim.
-/

namespace Dsky

/-- Rust `{:.1}` fixed formatting of a (rational idealization of a) float:
one digit after the decimal point, rounding the exact decimal value with the
standard ties-to-even rule, exactly as Rust's float `Display` does when a
precision is given.  Computed on the numerator and denominator: with
`f = ⌊10q⌋` and remainder `rem = 10·num − den·f`, the fractional part of
`10q` is `rem/den`, compared against one half. -/
def fmtFixed1 (q : ℚ) : String :=
  let n10 : ℤ := 10 * q.num
  let d : ℤ := (q.den : ℤ)
  let f : ℤ := n10.fdiv d
  let rem : ℤ := n10 - d * f
  let n : ℤ :=
    if 2 * rem < d then f
    else if d < 2 * rem then f + 1
    else if f % 2 = 0 then f else f + 1
  (if n < 0 then "-" else "") ++ toString (n.natAbs / 10) ++ "." ++ toString (n.natAbs % 10)

/-! ## The data model (src/lib.rs lines 24-143) -/

/-- `struct Weather` (src/lib.rs lines 38-61); element type of the hourly series. -/
structure Weather where
  time : ℕ
  summary : String
  icon : String
  nearest_storm_distance : Option ℚ
  nearest_storm_bearing : Option ℕ
  precip_intensity : ℚ
  precip_probability : ℚ
  precip_type : Option String
  temperature : ℚ
  apparent_temperature : ℚ
  dew_point : ℚ
  humidity : ℚ
  pressure : ℚ
  wind_speed : ℚ
  wind_gust : ℚ
  wind_bearing : ℕ
  cloud_cover : ℚ
  uv_index : ℕ
  visibility : ℚ
  ozone : ℚ
deriving DecidableEq

/-- `struct Precipation` (src/lib.rs lines 70-76). -/
structure Precipation where
  time : ℕ
  precip_intensity : ℚ
  precip_probability : ℚ
deriving DecidableEq

/-- `struct MinutelySeries` (src/lib.rs lines 63-68). -/
structure MinutelySeries where
  summary : String
  icon : String
  data : List Precipation
deriving DecidableEq

/-- `struct HourlySeries` (src/lib.rs lines 78-83). -/
structure HourlySeries where
  summary : String
  icon : String
  data : List Weather
deriving DecidableEq

/-- `struct DailyWeather` (src/lib.rs lines 92-126). -/
structure DailyWeather where
  time : ℕ
  summary : String
  icon : String
  sunrise_time : ℕ
  sunset_time : ℕ
  moon_phase : ℚ
  precip_intensity : ℚ
  precip_intensity_max : ℚ
  precip_intensity_max_time : Option ℕ
  precip_probability : ℚ
  precip_type : Option String
  temperature_high : ℚ
  temperature_high_time : ℕ
  temperature_low : ℚ
  temperature_low_time : ℕ
  apparent_temperature_high : ℚ
  apparent_temperature_high_time : ℕ
  apparent_temperature_low : ℚ
  apparent_temperature_low_time : ℕ
  dew_point : ℚ
  humidity : ℚ
  pressure : ℚ
  wind_speed : ℚ
  wind_gust : ℚ
  wind_gust_time : ℕ
  wind_bearing : ℕ
  cloud_cover : ℚ
  uv_index : ℕ
  uv_index_time : ℕ
  visibility : ℚ
  ozone : ℚ
deriving DecidableEq

/-- `struct DailySeries` (src/lib.rs lines 85-90). -/
structure DailySeries where
  summary : String
  icon : String
  data : List DailyWeather
deriving DecidableEq

/-- `struct Alerts` (src/lib.rs lines 128-135). -/
structure Alerts where
  title : String
  time : ℕ
  expires : ℕ
  description : String
  uri : String
deriving DecidableEq

/-- `struct Flags` (src/lib.rs lines 137-143). -/
structure Flags where
  sources : List String
  nearest_station : ℚ
  units : String
deriving DecidableEq

/-- `struct DarkskyResult` (src/lib.rs lines 24-36); latitude/longitude are
`rust_decimal::Decimal`, idealized here as exact rationals. -/
structure DarkskyResult where
  latitude : ℚ
  longitude : ℚ
  timezone : String
  currently : Weather
  minutely : Option MinutelySeries
  hourly : HourlySeries
  daily : DailySeries
  alerts : Option (List Alerts)
  flags : Flags
  offset : ℤ
deriving DecidableEq

/-! ## Formatting operations (src/lib.rs lines 145-198) -/

/-- `fn get_weather_icon` (src/lib.rs lines 145-162): the Rust `match` on the
icon string, wildcard arm returning the empty string. -/
def get_weather_icon (iconstr : String) : String :=
  if iconstr = "clear-day" then "☀️"
  else if iconstr = "clear-night" then "🌙"
  else if iconstr = "rain" then "🌧"
  else if iconstr = "snow" then "🌨"
  else if iconstr = "sleet" then "🌨"
  else if iconstr = "wind" then "💨"
  else if iconstr = "fog" then "🌫"
  else if iconstr = "cloudy" then "☁️"
  else if iconstr = "partly-cloudy-day" then "⛅️"
  else if iconstr = "partly-cloudy-night" then "🌙"
  else if iconstr = "hail" then "🌧"
  else if iconstr = "thunderstorm" then "⛈"
  else if iconstr = "tornado" then "🌪"
  else ""

/-- The thirteen icon strings recognized by `get_weather_icon`. -/
def recognizedIcons : List String :=
  ["clear-day", "clear-night", "rain", "snow", "sleet", "wind", "fog",
   "cloudy", "partly-cloudy-day", "partly-cloudy-night", "hail",
   "thunderstorm", "tornado"]

/-- `DarkskyResult::get_unit` (src/lib.rs lines 177-182). -/
def DarkskyResult.get_unit (r : DarkskyResult) : String :=
  if r.flags.units = "us" then "F" else "C"

/-- `DarkskyResult::get_current_weather_str` (src/lib.rs lines 183-191):
`format!("{:.1}°{} {} {}", temperature, unit, icon, summary)`. -/
def DarkskyResult.get_current_weather_str (r : DarkskyResult) : String :=
  fmtFixed1 r.currently.temperature ++ "°" ++ r.get_unit ++ " " ++
    get_weather_icon r.currently.icon ++ " " ++ r.currently.summary

/-- `impl Display for DarkskyResult` (src/lib.rs lines 194-198):
`write!(f, "{}", self.get_current_weather_str())`. -/
def DarkskyResult.toDisplayString (r : DarkskyResult) : String :=
  r.get_current_weather_str

/-! ## Request-URL construction (src/lib.rs lines 8, 165-172) -/

/-- `const DARKSKY_FORECAST_URL` (src/lib.rs line 8). -/
def DARKSKY_FORECAST_URL : String := "https://api.darksky.net/forecast/"

/-- A `rust_decimal::Decimal` value as the caller supplies it: an integer
mantissa with a decimal scale (value = mantissa / 10 ^ scale). -/
structure RDecimal where
  mantissa : ℤ
  scale : ℕ

/-- Left-pad a digit string with zeros to the given length. -/
def padZeros (s : String) (n : ℕ) : String :=
  String.mk (List.replicate (n - s.length) '0') ++ s

/-- `Decimal`'s `Display`: sign, integer part, and exactly `scale` fractional
digits (none when the scale is zero). -/
def RDecimal.toDecString (d : RDecimal) : String :=
  (if d.mantissa < 0 then "-" else "") ++
    (if d.scale = 0 then toString d.mantissa.natAbs
     else toString (d.mantissa.natAbs / 10 ^ d.scale) ++ "." ++
       padZeros (toString (d.mantissa.natAbs % 10 ^ d.scale)) d.scale)

/-- Uppercase hexadecimal digit. -/
def hexDigitU (n : ℕ) : Char :=
  if n < 10 then Char.ofNat (48 + n) else Char.ofNat (55 + n)

/-- UTF-8 encoding of a character, as byte values. -/
def utf8Bytes (c : Char) : List ℕ :=
  let n := c.toNat
  if n < 128 then [n]
  else if n < 2048 then [192 + n / 64, 128 + n % 64]
  else if n < 65536 then [224 + n / 4096, 128 + (n / 64) % 64, 128 + n % 64]
  else [240 + n / 262144, 128 + (n / 4096) % 64, 128 + (n / 64) % 64, 128 + n % 64]

/-- The bytes the `urlencoding` crate leaves unencoded: ASCII alphanumerics
and `-`, `_`, `.`, `~`. -/
def isUrlUnreserved (c : Char) : Bool :=
  c.isAlpha || c.isDigit || c = '-' || c = '_' || c = '.' || c = '~'

/-- Percent-encode one character, byte by byte, as `urlencoding::encode` does. -/
def pctEncodeChar (c : Char) : String :=
  if isUrlUnreserved c then String.singleton c
  else String.join ((utf8Bytes c).map fun b =>
    String.mk ['%', hexDigitU (b / 16), hexDigitU (b % 16)])

/-- `urlencoding::encode`. -/
def urlencode (s : String) : String :=
  String.join (s.data.map pctEncodeChar)

/-- The request URL built by `DarkskyResult::new` (src/lib.rs lines 166-172):
`format!("{}{}/{},{}", DARKSKY_FORECAST_URL, urlencoding::encode(api_key), lat, lng)`. -/
def buildRequestUrl (api_key : String) (lat lng : RDecimal) : String :=
  DARKSKY_FORECAST_URL ++ urlencode api_key ++ "/" ++
    lat.toDecString ++ "," ++ lng.toDecString

/-! ## Example values -/

/-- A concrete current-conditions record; the temperature is the exact value
of the `f32` nearest to 72.34 (2370437 / 32768 = 72.33999633789…). -/
def exWeather : Weather :=
  { time := 1700000000, summary := "Clear", icon := "clear-day",
    nearest_storm_distance := none, nearest_storm_bearing := none,
    precip_intensity := 0, precip_probability := 0, precip_type := none,
    temperature := mkRat 2370437 32768, apparent_temperature := 71,
    dew_point := 50, humidity := mkRat 1 2, pressure := 1013, wind_speed := 5,
    wind_gust := 7, wind_bearing := 180, cloud_cover := 0, uv_index := 3,
    visibility := 10, ozone := 300 }

/-- A concrete flags record with the `us` units convention. -/
def exFlags : Flags :=
  { sources := ["nearest-precip"], nearest_station := 1, units := "us" }

/-- A concrete hourly series (empty data). -/
def exHourly : HourlySeries := { summary := "h", icon := "clear-day", data := [] }

/-- A concrete daily series (empty data). -/
def exDaily : DailySeries := { summary := "d", icon := "clear-day", data := [] }

/-- A concrete parsed forecast result. -/
def exResult : DarkskyResult :=
  { latitude := mkRat 378267 10000, longitude := mkRat (-1224233) 10000,
    timezone := "America/Los_Angeles", currently := exWeather,
    minutely := none, hourly := exHourly, daily := exDaily,
    alerts := none, flags := exFlags, offset := -8 }

/-- `exResult` with an unrecognized units convention. -/
def exResultUk2 : DarkskyResult :=
  { exResult with flags := { exFlags with units := "uk2" } }

/-- `exResult` with an unrecognized icon string. -/
def exResultBogus : DarkskyResult :=
  { exResult with currently := { exWeather with icon := "bogus-icon" } }

/-- `exResult` with different presentation-irrelevant fields (timezone,
coordinates, offset, series summaries). -/
def exResultOtherMeta : DarkskyResult :=
  { exResult with
    timezone := "UTC",
    latitude := 0,
    longitude := 1,
    offset := 0,
    hourly := { exHourly with summary := "other" } }

/-! ## JSON values and serde_json deserialization of the model

The derived serde `Deserialize` impls are embedded as explicit parsers over a
`Json` inductive: a required field must be present with the expected type
(`SchemaMismatch` otherwise, modelled as `none`), an `Option` field may be
absent or `null`, unknown fields are ignored, and the wire names follow the
`rename_all` attributes of the structs. -/

/-- JSON values; numbers are idealized as exact rationals. -/
inductive Json where
  | null
  | bool (b : Bool)
  | num (q : ℚ)
  | str (s : String)
  | arr (elems : List Json)
  | obj (fields : List (String × Json))

/-- First-occurrence key lookup in a JSON object's field list. -/
def lookupJ : List (String × Json) → String → Option Json
  | [], _ => none
  | (k, v) :: rest, key => if k = key then some v else lookupJ rest key

/-- The field list of an object value (empty for non-objects). -/
def topFields : Json → List (String × Json)
  | .obj o => o
  | _ => []

/-- Deserialize a JSON string. -/
def jStr : Json → Option String
  | .str s => some s
  | _ => none

/-- Deserialize a float field (`f32`, idealized): any JSON number. -/
def jQ : Json → Option ℚ
  | .num q => some q
  | _ => none

/-- Deserialize an unsigned integer (`u64`/`u16`/`u8`): an integral JSON
number in `[0, bound)`. -/
def jNat (bound : ℤ) : Json → Option ℕ
  | .num q => if q.den = 1 ∧ 0 ≤ q.num ∧ q.num < bound then some q.num.toNat else none
  | _ => none

/-- Deserialize an `i8`: an integral JSON number in `[-128, 128)`. -/
def jInt8 : Json → Option ℤ
  | .num q => if q.den = 1 ∧ -128 ≤ q.num ∧ q.num < 128 then some q.num else none
  | _ => none

/-- Modelled from the spec: the `rust_decimal::Decimal` codec (feature
selection lives in the crate manifest, which is not part of `src/`); per the
spec latitude/longitude are preserved at full input precision, so the codec
is the exact JSON number. -/
def jDec : Json → Option ℚ
  | .num q => some q
  | _ => none

/-- Elementwise deserialization of a JSON array's elements, failing as a
whole if any element fails. -/
def mapMJ (p : Json → Option α) : List Json → Option (List α)
  | [] => some []
  | x :: xs => (p x).bind fun a => (mapMJ p xs).bind fun l => some (a :: l)

/-- Deserialize a `Vec<T>` from a JSON array, elementwise. -/
def jList (p : Json → Option α) : Json → Option (List α)
  | .arr xs => mapMJ p xs
  | _ => none

/-- A required struct field: look it up and deserialize it; absence or a
type mismatch is an error. -/
def reqF (o : List (String × Json)) (k : String) (p : Json → Option α) : Option α :=
  (lookupJ o k).bind p

/-- An `Option` struct field: absent or `null` gives `none`; a present
non-null value must deserialize. -/
def optF (o : List (String × Json)) (k : String) (p : Json → Option α) : Option (Option α) :=
  match lookupJ o k with
  | none => some none
  | some .null => some none
  | some v => (p v).map some

/-- A derived struct deserializer: the payload must be a JSON object. -/
def objP (F : List (String × Json) → Option α) : Json → Option α
  | .obj o => F o
  | _ => none

/-- `Option.bind`, kept out of inlining so that the code generator compiles
long deserializer chains in linear time. -/
@[noinline] def obind (x : Option α) (f : α → Option β) : Option β := Option.bind x f

/-- Field extraction for `Weather` (wire names are camelCase). -/
def weatherF (o : List (String × Json)) : Option Weather :=
  obind (reqF o "time" (jNat (2 ^ 64))) fun time =>
  obind (reqF o "summary" jStr) fun summary =>
  obind (reqF o "icon" jStr) fun icon =>
  obind (optF o "nearestStormDistance" jQ) fun nearest_storm_distance =>
  obind (optF o "nearestStormBearing" (jNat (2 ^ 16))) fun nearest_storm_bearing =>
  obind (reqF o "precipIntensity" jQ) fun precip_intensity =>
  obind (reqF o "precipProbability" jQ) fun precip_probability =>
  obind (optF o "precipType" jStr) fun precip_type =>
  obind (reqF o "temperature" jQ) fun temperature =>
  obind (reqF o "apparentTemperature" jQ) fun apparent_temperature =>
  obind (reqF o "dewPoint" jQ) fun dew_point =>
  obind (reqF o "humidity" jQ) fun humidity =>
  obind (reqF o "pressure" jQ) fun pressure =>
  obind (reqF o "windSpeed" jQ) fun wind_speed =>
  obind (reqF o "windGust" jQ) fun wind_gust =>
  obind (reqF o "windBearing" (jNat (2 ^ 16))) fun wind_bearing =>
  obind (reqF o "cloudCover" jQ) fun cloud_cover =>
  obind (reqF o "uvIndex" (jNat (2 ^ 8))) fun uv_index =>
  obind (reqF o "visibility" jQ) fun visibility =>
  obind (reqF o "ozone" jQ) fun ozone =>
  some { time, summary, icon, nearest_storm_distance, nearest_storm_bearing,
         precip_intensity, precip_probability, precip_type, temperature,
         apparent_temperature, dew_point, humidity, pressure, wind_speed,
         wind_gust, wind_bearing, cloud_cover, uv_index, visibility, ozone }

/-- Deserializer for `Weather`. -/
def parseWeather : Json → Option Weather := objP weatherF

/-- Field extraction for `Precipation` (camelCase wire names). -/
def precipationF (o : List (String × Json)) : Option Precipation :=
  obind (reqF o "time" (jNat (2 ^ 64))) fun time =>
  obind (reqF o "precipIntensity" jQ) fun precip_intensity =>
  obind (reqF o "precipProbability" jQ) fun precip_probability =>
  some { time, precip_intensity, precip_probability }

/-- Deserializer for `Precipation`. -/
def parsePrecipation : Json → Option Precipation := objP precipationF

/-- Field extraction for `MinutelySeries` (no rename). -/
def minutelyF (o : List (String × Json)) : Option MinutelySeries :=
  obind (reqF o "summary" jStr) fun summary =>
  obind (reqF o "icon" jStr) fun icon =>
  obind (reqF o "data" (jList parsePrecipation)) fun data =>
  some { summary, icon, data }

/-- Deserializer for `MinutelySeries`. -/
def parseMinutelySeries : Json → Option MinutelySeries := objP minutelyF

/-- Field extraction for `HourlySeries` (no rename). -/
def hourlyF (o : List (String × Json)) : Option HourlySeries :=
  obind (reqF o "summary" jStr) fun summary =>
  obind (reqF o "icon" jStr) fun icon =>
  obind (reqF o "data" (jList parseWeather)) fun data =>
  some { summary, icon, data }

/-- Deserializer for `HourlySeries`. -/
def parseHourlySeries : Json → Option HourlySeries := objP hourlyF

/-- Field extraction for `DailyWeather` (camelCase wire names). -/
def dailyWeatherF (o : List (String × Json)) : Option DailyWeather :=
  obind (reqF o "time" (jNat (2 ^ 64))) fun time =>
  obind (reqF o "summary" jStr) fun summary =>
  obind (reqF o "icon" jStr) fun icon =>
  obind (reqF o "sunriseTime" (jNat (2 ^ 64))) fun sunrise_time =>
  obind (reqF o "sunsetTime" (jNat (2 ^ 64))) fun sunset_time =>
  obind (reqF o "moonPhase" jQ) fun moon_phase =>
  obind (reqF o "precipIntensity" jQ) fun precip_intensity =>
  obind (reqF o "precipIntensityMax" jQ) fun precip_intensity_max =>
  obind (optF o "precipIntensityMaxTime" (jNat (2 ^ 64))) fun precip_intensity_max_time =>
  obind (reqF o "precipProbability" jQ) fun precip_probability =>
  obind (optF o "precipType" jStr) fun precip_type =>
  obind (reqF o "temperatureHigh" jQ) fun temperature_high =>
  obind (reqF o "temperatureHighTime" (jNat (2 ^ 64))) fun temperature_high_time =>
  obind (reqF o "temperatureLow" jQ) fun temperature_low =>
  obind (reqF o "temperatureLowTime" (jNat (2 ^ 64))) fun temperature_low_time =>
  obind (reqF o "apparentTemperatureHigh" jQ) fun apparent_temperature_high =>
  obind (reqF o "apparentTemperatureHighTime" (jNat (2 ^ 64))) fun apparent_temperature_high_time =>
  obind (reqF o "apparentTemperatureLow" jQ) fun apparent_temperature_low =>
  obind (reqF o "apparentTemperatureLowTime" (jNat (2 ^ 64))) fun apparent_temperature_low_time =>
  obind (reqF o "dewPoint" jQ) fun dew_point =>
  obind (reqF o "humidity" jQ) fun humidity =>
  obind (reqF o "pressure" jQ) fun pressure =>
  obind (reqF o "windSpeed" jQ) fun wind_speed =>
  obind (reqF o "windGust" jQ) fun wind_gust =>
  obind (reqF o "windGustTime" (jNat (2 ^ 64))) fun wind_gust_time =>
  obind (reqF o "windBearing" (jNat (2 ^ 16))) fun wind_bearing =>
  obind (reqF o "cloudCover" jQ) fun cloud_cover =>
  obind (reqF o "uvIndex" (jNat (2 ^ 8))) fun uv_index =>
  obind (reqF o "uvIndexTime" (jNat (2 ^ 64))) fun uv_index_time =>
  obind (reqF o "visibility" jQ) fun visibility =>
  obind (reqF o "ozone" jQ) fun ozone =>
  some { time, summary, icon, sunrise_time, sunset_time, moon_phase,
         precip_intensity, precip_intensity_max, precip_intensity_max_time,
         precip_probability, precip_type, temperature_high,
         temperature_high_time, temperature_low, temperature_low_time,
         apparent_temperature_high, apparent_temperature_high_time,
         apparent_temperature_low, apparent_temperature_low_time, dew_point,
         humidity, pressure, wind_speed, wind_gust, wind_gust_time,
         wind_bearing, cloud_cover, uv_index, uv_index_time, visibility, ozone }

/-- Deserializer for `DailyWeather`. -/
def parseDailyWeather : Json → Option DailyWeather := objP dailyWeatherF

/-- Field extraction for `DailySeries` (no rename). -/
def dailyF (o : List (String × Json)) : Option DailySeries :=
  obind (reqF o "summary" jStr) fun summary =>
  obind (reqF o "icon" jStr) fun icon =>
  obind (reqF o "data" (jList parseDailyWeather)) fun data =>
  some { summary, icon, data }

/-- Deserializer for `DailySeries`. -/
def parseDailySeries : Json → Option DailySeries := objP dailyF

/-- Field extraction for `Alerts` (no rename). -/
def alertsF (o : List (String × Json)) : Option Alerts :=
  obind (reqF o "title" jStr) fun title =>
  obind (reqF o "time" (jNat (2 ^ 64))) fun time =>
  obind (reqF o "expires" (jNat (2 ^ 64))) fun expires =>
  obind (reqF o "description" jStr) fun description =>
  obind (reqF o "uri" jStr) fun uri =>
  some { title, time, expires, description, uri }

/-- Deserializer for `Alerts`. -/
def parseAlerts : Json → Option Alerts := objP alertsF

/-- Field extraction for `Flags` (kebab-case wire names). -/
def flagsF (o : List (String × Json)) : Option Flags :=
  obind (reqF o "sources" (jList jStr)) fun sources =>
  obind (reqF o "nearest-station" jQ) fun nearest_station =>
  obind (reqF o "units" jStr) fun units =>
  some { sources, nearest_station, units }

/-- Deserializer for `Flags`. -/
def parseFlags : Json → Option Flags := objP flagsF

/-- Field extraction for `DarkskyResult` (no rename on the top level). -/
def darkskyF (o : List (String × Json)) : Option DarkskyResult :=
  obind (reqF o "latitude" jDec) fun latitude =>
  obind (reqF o "longitude" jDec) fun longitude =>
  obind (reqF o "timezone" jStr) fun timezone =>
  obind (reqF o "currently" parseWeather) fun currently =>
  obind (optF o "minutely" parseMinutelySeries) fun minutely =>
  obind (reqF o "hourly" parseHourlySeries) fun hourly =>
  obind (reqF o "daily" parseDailySeries) fun daily =>
  obind (optF o "alerts" (jList parseAlerts)) fun alerts =>
  obind (reqF o "flags" parseFlags) fun flags =>
  obind (reqF o "offset" jInt8) fun offset =>
  some { latitude, longitude, timezone, currently, minutely, hourly, daily,
         alerts, flags, offset }

/-- Deserializer for the top-level `DarkskyResult` payload
(`serde_json::from_str::<DarkskyResult>`, src/lib.rs line 175). -/
def parseDarkskyResult : Json → Option DarkskyResult := objP darkskyF

/-! ## serde_json serialization of the model

The derived `Serialize` impls emit the struct fields in declaration order
with the renamed wire names; an `Option` field that is `None` is emitted as
an explicit `null` (there is no `skip_serializing_if` attribute in the
source). -/

/-- Serialize an `Option` field: `None` becomes `null`. -/
def jOpt (enc : α → Json) : Option α → Json
  | none => .null
  | some a => enc a

/-- Serialize an unsigned integer field. -/
def encNat (n : ℕ) : Json := .num n

/-- Serialize a `Vec<String>` field. -/
def encStrList (l : List String) : Json := .arr (l.map Json.str)

/-- Serialized field list of `Weather`. -/
def serFieldsWeather (w : Weather) : List (String × Json) :=
  [("time", .num w.time), ("summary", .str w.summary), ("icon", .str w.icon),
   ("nearestStormDistance", jOpt (fun q => .num q) w.nearest_storm_distance),
   ("nearestStormBearing", jOpt encNat w.nearest_storm_bearing),
   ("precipIntensity", .num w.precip_intensity),
   ("precipProbability", .num w.precip_probability),
   ("precipType", jOpt .str w.precip_type),
   ("temperature", .num w.temperature),
   ("apparentTemperature", .num w.apparent_temperature),
   ("dewPoint", .num w.dew_point), ("humidity", .num w.humidity),
   ("pressure", .num w.pressure), ("windSpeed", .num w.wind_speed),
   ("windGust", .num w.wind_gust), ("windBearing", .num w.wind_bearing),
   ("cloudCover", .num w.cloud_cover), ("uvIndex", .num w.uv_index),
   ("visibility", .num w.visibility), ("ozone", .num w.ozone)]

/-- Serializer for `Weather`. -/
def serializeWeather (w : Weather) : Json := .obj (serFieldsWeather w)

/-- Serialized field list of `Precipation`. -/
def serFieldsPrecipation (p : Precipation) : List (String × Json) :=
  [("time", .num p.time), ("precipIntensity", .num p.precip_intensity),
   ("precipProbability", .num p.precip_probability)]

/-- Serializer for `Precipation`. -/
def serializePrecipation (p : Precipation) : Json := .obj (serFieldsPrecipation p)

/-- Serialized field list of `MinutelySeries`. -/
def serFieldsMinutely (m : MinutelySeries) : List (String × Json) :=
  [("summary", .str m.summary), ("icon", .str m.icon),
   ("data", .arr (m.data.map serializePrecipation))]

/-- Serializer for `MinutelySeries`. -/
def serializeMinutelySeries (m : MinutelySeries) : Json := .obj (serFieldsMinutely m)

/-- Serialized field list of `HourlySeries`. -/
def serFieldsHourly (h : HourlySeries) : List (String × Json) :=
  [("summary", .str h.summary), ("icon", .str h.icon),
   ("data", .arr (h.data.map serializeWeather))]

/-- Serializer for `HourlySeries`. -/
def serializeHourlySeries (h : HourlySeries) : Json := .obj (serFieldsHourly h)

/-- Serialized field list of `DailyWeather`. -/
def serFieldsDailyWeather (d : DailyWeather) : List (String × Json) :=
  [("time", .num d.time), ("summary", .str d.summary), ("icon", .str d.icon),
   ("sunriseTime", .num d.sunrise_time), ("sunsetTime", .num d.sunset_time),
   ("moonPhase", .num d.moon_phase),
   ("precipIntensity", .num d.precip_intensity),
   ("precipIntensityMax", .num d.precip_intensity_max),
   ("precipIntensityMaxTime", jOpt encNat d.precip_intensity_max_time),
   ("precipProbability", .num d.precip_probability),
   ("precipType", jOpt .str d.precip_type),
   ("temperatureHigh", .num d.temperature_high),
   ("temperatureHighTime", .num d.temperature_high_time),
   ("temperatureLow", .num d.temperature_low),
   ("temperatureLowTime", .num d.temperature_low_time),
   ("apparentTemperatureHigh", .num d.apparent_temperature_high),
   ("apparentTemperatureHighTime", .num d.apparent_temperature_high_time),
   ("apparentTemperatureLow", .num d.apparent_temperature_low),
   ("apparentTemperatureLowTime", .num d.apparent_temperature_low_time),
   ("dewPoint", .num d.dew_point), ("humidity", .num d.humidity),
   ("pressure", .num d.pressure), ("windSpeed", .num d.wind_speed),
   ("windGust", .num d.wind_gust), ("windGustTime", .num d.wind_gust_time),
   ("windBearing", .num d.wind_bearing), ("cloudCover", .num d.cloud_cover),
   ("uvIndex", .num d.uv_index), ("uvIndexTime", .num d.uv_index_time),
   ("visibility", .num d.visibility), ("ozone", .num d.ozone)]

/-- Serializer for `DailyWeather`. -/
def serializeDailyWeather (d : DailyWeather) : Json := .obj (serFieldsDailyWeather d)

/-- Serialized field list of `DailySeries`. -/
def serFieldsDaily (d : DailySeries) : List (String × Json) :=
  [("summary", .str d.summary), ("icon", .str d.icon),
   ("data", .arr (d.data.map serializeDailyWeather))]

/-- Serializer for `DailySeries`. -/
def serializeDailySeries (d : DailySeries) : Json := .obj (serFieldsDaily d)

/-- Serialized field list of `Alerts`. -/
def serFieldsAlerts (a : Alerts) : List (String × Json) :=
  [("title", .str a.title), ("time", .num a.time), ("expires", .num a.expires),
   ("description", .str a.description), ("uri", .str a.uri)]

/-- Serializer for `Alerts`. -/
def serializeAlerts (a : Alerts) : Json := .obj (serFieldsAlerts a)

/-- Serialized field list of `Flags`. -/
def serFieldsFlags (f : Flags) : List (String × Json) :=
  [("sources", encStrList f.sources),
   ("nearest-station", .num f.nearest_station), ("units", .str f.units)]

/-- Serializer for `Flags`. -/
def serializeFlags (f : Flags) : Json := .obj (serFieldsFlags f)

/-- Serialized field list of `DarkskyResult`. -/
def serFieldsDarksky (r : DarkskyResult) : List (String × Json) :=
  [("latitude", .num r.latitude), ("longitude", .num r.longitude),
   ("timezone", .str r.timezone), ("currently", serializeWeather r.currently),
   ("minutely", jOpt serializeMinutelySeries r.minutely),
   ("hourly", serializeHourlySeries r.hourly),
   ("daily", serializeDailySeries r.daily),
   ("alerts", jOpt (fun l => .arr (l.map serializeAlerts)) r.alerts),
   ("flags", serializeFlags r.flags), ("offset", .num r.offset)]

/-- Serializer for the top-level `DarkskyResult`. -/
def serializeDarkskyResult (r : DarkskyResult) : Json := .obj (serFieldsDarksky r)

/-! ## Required fields of the data model (spec §3)

Spec-side description of which wire fields are required (non-optional) for
each entity, together with the JSON shape each must have.  `Option` fields
(`minutely`, `alerts`, `nearestStormDistance`, `nearestStormBearing`,
`precipType`, `precipIntensityMaxTime`) are excluded. -/

/-- Coarse JSON shapes for required-field typing. -/
inductive JShape where
  | jnum
  | jstr
  | jarr
  | jobj
deriving DecidableEq

/-- Does a JSON value have the given shape? -/
def shapeOk : JShape → Json → Bool
  | .jnum, .num _ => true
  | .jstr, .str _ => true
  | .jarr, .arr _ => true
  | .jobj, .obj _ => true
  | _, _ => false

/-- The object has the required field, with the required shape. -/
def fieldShapeOk (o : List (String × Json)) (kt : String × JShape) : Prop :=
  ∃ v, lookupJ o kt.1 = some v ∧ shapeOk kt.2 v = true

/-- Required fields of the top-level `ForecastResult` payload. -/
def reqKeysDarksky : List (String × JShape) :=
  [("latitude", .jnum), ("longitude", .jnum), ("timezone", .jstr),
   ("currently", .jobj), ("hourly", .jobj), ("daily", .jobj),
   ("flags", .jobj), ("offset", .jnum)]

/-- Required fields of a `Weather` object. -/
def reqKeysWeather : List (String × JShape) :=
  [("time", .jnum), ("summary", .jstr), ("icon", .jstr),
   ("precipIntensity", .jnum), ("precipProbability", .jnum),
   ("temperature", .jnum), ("apparentTemperature", .jnum),
   ("dewPoint", .jnum), ("humidity", .jnum), ("pressure", .jnum),
   ("windSpeed", .jnum), ("windGust", .jnum), ("windBearing", .jnum),
   ("cloudCover", .jnum), ("uvIndex", .jnum), ("visibility", .jnum),
   ("ozone", .jnum)]

/-- Required fields of a `Precipation` object. -/
def reqKeysPrecipation : List (String × JShape) :=
  [("time", .jnum), ("precipIntensity", .jnum), ("precipProbability", .jnum)]

/-- Required fields of each time-series wrapper object. -/
def reqKeysSeries : List (String × JShape) :=
  [("summary", .jstr), ("icon", .jstr), ("data", .jarr)]

/-- Required fields of a `DailyWeather` object. -/
def reqKeysDailyWeather : List (String × JShape) :=
  [("time", .jnum), ("summary", .jstr), ("icon", .jstr),
   ("sunriseTime", .jnum), ("sunsetTime", .jnum), ("moonPhase", .jnum),
   ("precipIntensity", .jnum), ("precipIntensityMax", .jnum),
   ("precipProbability", .jnum), ("temperatureHigh", .jnum),
   ("temperatureHighTime", .jnum), ("temperatureLow", .jnum),
   ("temperatureLowTime", .jnum), ("apparentTemperatureHigh", .jnum),
   ("apparentTemperatureHighTime", .jnum), ("apparentTemperatureLow", .jnum),
   ("apparentTemperatureLowTime", .jnum), ("dewPoint", .jnum),
   ("humidity", .jnum), ("pressure", .jnum), ("windSpeed", .jnum),
   ("windGust", .jnum), ("windGustTime", .jnum), ("windBearing", .jnum),
   ("cloudCover", .jnum), ("uvIndex", .jnum), ("uvIndexTime", .jnum),
   ("visibility", .jnum), ("ozone", .jnum)]

/-- Required fields of an `Alerts` object. -/
def reqKeysAlerts : List (String × JShape) :=
  [("title", .jstr), ("time", .jnum), ("expires", .jnum),
   ("description", .jstr), ("uri", .jstr)]

/-- Required fields of a `Flags` object. -/
def reqKeysFlags : List (String × JShape) :=
  [("sources", .jarr), ("nearest-station", .jnum), ("units", .jstr)]

/-! ## Field-level round-trip agreement (spec §8, first property)

Spec-side relations stating that the re-serialized output agrees with the
input payload value-for-value at every schema field.  Leaf fields must carry
the identical JSON value; nested objects agree recursively on their schema
fields (serde drops unknown fields and emits declaration order, so nested
object values need not be syntactically identical); an optional field absent
or `null` in the input is re-serialized as an explicit `null`. -/

/-- The two objects carry the identical value at field `k`. -/
def eqAt (oOut oIn : List (String × Json)) (k : String) : Prop :=
  lookupJ oOut k = lookupJ oIn k

/-- Round-trip agreement of an optional field whose present value is related
by `M`: absence or `null` in the input becomes an explicit `null` in the
output; a present non-null input value has an `M`-related output value. -/
def optObjRT (oOut oIn : List (String × Json)) (k : String)
    (M : Json → Json → Prop) : Prop :=
  (lookupJ oIn k = none → lookupJ oOut k = some .null) ∧
  (lookupJ oIn k = some .null → lookupJ oOut k = some .null) ∧
  (∀ v, lookupJ oIn k = some v → v ≠ .null → ∃ w, lookupJ oOut k = some w ∧ M w v)

/-- Round-trip agreement of a required field whose values are related by `M`. -/
def reqObjRT (oOut oIn : List (String × Json)) (k : String)
    (M : Json → Json → Prop) : Prop :=
  ∃ wO wI, lookupJ oOut k = some wO ∧ lookupJ oIn k = some wI ∧ M wO wI

/-- Both values are objects whose field lists are related by `R`. -/
def matchesObj (R : List (String × Json) → List (String × Json) → Prop)
    (jOut jIn : Json) : Prop :=
  ∃ oO oI, jOut = .obj oO ∧ jIn = .obj oI ∧ R oO oI

/-- Both values are arrays, elementwise related by `M`. -/
def arrMatch (M : Json → Json → Prop) (jOut jIn : Json) : Prop :=
  ∃ aO aI, jOut = .arr aO ∧ jIn = .arr aI ∧ List.Forall₂ M aO aI

/-- Round-trip agreement for a `Weather` object: every schema field
value-for-value (optionals up to the absent-becomes-null rule). -/
def serMatchesWeather (oOut oIn : List (String × Json)) : Prop :=
  eqAt oOut oIn "time" ∧ eqAt oOut oIn "summary" ∧ eqAt oOut oIn "icon" ∧
  optObjRT oOut oIn "nearestStormDistance" Eq ∧
  optObjRT oOut oIn "nearestStormBearing" Eq ∧
  eqAt oOut oIn "precipIntensity" ∧ eqAt oOut oIn "precipProbability" ∧
  optObjRT oOut oIn "precipType" Eq ∧
  eqAt oOut oIn "temperature" ∧ eqAt oOut oIn "apparentTemperature" ∧
  eqAt oOut oIn "dewPoint" ∧ eqAt oOut oIn "humidity" ∧
  eqAt oOut oIn "pressure" ∧ eqAt oOut oIn "windSpeed" ∧
  eqAt oOut oIn "windGust" ∧ eqAt oOut oIn "windBearing" ∧
  eqAt oOut oIn "cloudCover" ∧ eqAt oOut oIn "uvIndex" ∧
  eqAt oOut oIn "visibility" ∧ eqAt oOut oIn "ozone"

/-- Round-trip agreement for a `Precipation` object. -/
def serMatchesPrecipation (oOut oIn : List (String × Json)) : Prop :=
  eqAt oOut oIn "time" ∧ eqAt oOut oIn "precipIntensity" ∧
  eqAt oOut oIn "precipProbability"

/-- Round-trip agreement for a `MinutelySeries` object. -/
def serMatchesMinutely (oOut oIn : List (String × Json)) : Prop :=
  eqAt oOut oIn "summary" ∧ eqAt oOut oIn "icon" ∧
  reqObjRT oOut oIn "data" (arrMatch (matchesObj serMatchesPrecipation))

/-- Round-trip agreement for an `HourlySeries` object. -/
def serMatchesHourly (oOut oIn : List (String × Json)) : Prop :=
  eqAt oOut oIn "summary" ∧ eqAt oOut oIn "icon" ∧
  reqObjRT oOut oIn "data" (arrMatch (matchesObj serMatchesWeather))

/-- Round-trip agreement for a `DailyWeather` object. -/
def serMatchesDailyWeather (oOut oIn : List (String × Json)) : Prop :=
  eqAt oOut oIn "time" ∧ eqAt oOut oIn "summary" ∧ eqAt oOut oIn "icon" ∧
  eqAt oOut oIn "sunriseTime" ∧ eqAt oOut oIn "sunsetTime" ∧
  eqAt oOut oIn "moonPhase" ∧ eqAt oOut oIn "precipIntensity" ∧
  eqAt oOut oIn "precipIntensityMax" ∧
  optObjRT oOut oIn "precipIntensityMaxTime" Eq ∧
  eqAt oOut oIn "precipProbability" ∧ optObjRT oOut oIn "precipType" Eq ∧
  eqAt oOut oIn "temperatureHigh" ∧ eqAt oOut oIn "temperatureHighTime" ∧
  eqAt oOut oIn "temperatureLow" ∧ eqAt oOut oIn "temperatureLowTime" ∧
  eqAt oOut oIn "apparentTemperatureHigh" ∧
  eqAt oOut oIn "apparentTemperatureHighTime" ∧
  eqAt oOut oIn "apparentTemperatureLow" ∧
  eqAt oOut oIn "apparentTemperatureLowTime" ∧
  eqAt oOut oIn "dewPoint" ∧ eqAt oOut oIn "humidity" ∧
  eqAt oOut oIn "pressure" ∧ eqAt oOut oIn "windSpeed" ∧
  eqAt oOut oIn "windGust" ∧ eqAt oOut oIn "windGustTime" ∧
  eqAt oOut oIn "windBearing" ∧ eqAt oOut oIn "cloudCover" ∧
  eqAt oOut oIn "uvIndex" ∧ eqAt oOut oIn "uvIndexTime" ∧
  eqAt oOut oIn "visibility" ∧ eqAt oOut oIn "ozone"

/-- Round-trip agreement for a `DailySeries` object. -/
def serMatchesDaily (oOut oIn : List (String × Json)) : Prop :=
  eqAt oOut oIn "summary" ∧ eqAt oOut oIn "icon" ∧
  reqObjRT oOut oIn "data" (arrMatch (matchesObj serMatchesDailyWeather))

/-- Round-trip agreement for an `Alerts` object. -/
def serMatchesAlerts (oOut oIn : List (String × Json)) : Prop :=
  eqAt oOut oIn "title" ∧ eqAt oOut oIn "time" ∧ eqAt oOut oIn "expires" ∧
  eqAt oOut oIn "description" ∧ eqAt oOut oIn "uri"

/-- Round-trip agreement for a `Flags` object. -/
def serMatchesFlags (oOut oIn : List (String × Json)) : Prop :=
  eqAt oOut oIn "sources" ∧ eqAt oOut oIn "nearest-station" ∧
  eqAt oOut oIn "units"

/-- Round-trip agreement for the whole `ForecastResult` payload. -/
def serMatchesDarksky (oOut oIn : List (String × Json)) : Prop :=
  eqAt oOut oIn "latitude" ∧ eqAt oOut oIn "longitude" ∧
  eqAt oOut oIn "timezone" ∧
  reqObjRT oOut oIn "currently" (matchesObj serMatchesWeather) ∧
  optObjRT oOut oIn "minutely" (matchesObj serMatchesMinutely) ∧
  reqObjRT oOut oIn "hourly" (matchesObj serMatchesHourly) ∧
  reqObjRT oOut oIn "daily" (matchesObj serMatchesDaily) ∧
  optObjRT oOut oIn "alerts" (arrMatch (matchesObj serMatchesAlerts)) ∧
  reqObjRT oOut oIn "flags" (matchesObj serMatchesFlags) ∧
  eqAt oOut oIn "offset"

/-- Is the field present with an explicit `null` value? -/
def isNullAt (o : List (String × Json)) (k : String) : Bool :=
  match lookupJ o k with
  | some .null => true
  | _ => false

/-! ## A concrete well-formed wire payload without the optional fields -/

/-- A `Weather` object as it appears on the wire (no optional fields). -/
def jExWeather : Json :=
  .obj [("time", .num 1700000000), ("summary", .str "Foggy"),
        ("icon", .str "fog"), ("precipIntensity", .num 0),
        ("precipProbability", .num 0), ("temperature", .num 61),
        ("apparentTemperature", .num 60), ("dewPoint", .num 50),
        ("humidity", .num 1), ("pressure", .num 1013),
        ("windSpeed", .num 5), ("windGust", .num 7),
        ("windBearing", .num 180), ("cloudCover", .num 1),
        ("uvIndex", .num 3), ("visibility", .num 10), ("ozone", .num 300)]

/-- A wire payload matching the schema in which the optional `minutely` and
`alerts` fields are absent. -/
def jNoMinutely : Json :=
  .obj [("latitude", .num 37), ("longitude", .num (-122)),
        ("timezone", .str "America/Los_Angeles"),
        ("currently", jExWeather),
        ("hourly", .obj [("summary", .str "h"), ("icon", .str "fog"),
                         ("data", .arr [])]),
        ("daily", .obj [("summary", .str "d"), ("icon", .str "fog"),
                        ("data", .arr [])]),
        ("flags", .obj [("sources", .arr [.str "isd"]),
                        ("nearest-station", .num 2), ("units", .str "us")]),
        ("offset", .num (-8))]

/-! ## Helper lemmas for the formatting operations -/

/-- A string outside the thirteen-entry table maps to the empty glyph. -/
theorem get_weather_icon_unrecognized {s : String} (h : s ∉ recognizedIcons) :
    get_weather_icon s = "" := by
  simp only [recognizedIcons, List.mem_cons, List.not_mem_nil, or_false, not_or] at h
  obtain ⟨h1, h2, h3, h4, h5, h6, h7, h8, h9, h10, h11, h12, h13⟩ := h
  simp [get_weather_icon, h1, h2, h3, h4, h5, h6, h7, h8, h9, h10, h11, h12, h13]

/-! ## Helper lemmas for the deserializers -/

/-- Inverting `obind`. -/
theorem obind_eq_some {x : Option α} {f : α → Option β} {b : β} :
    obind x f = some b ↔ ∃ a, x = some a ∧ f a = some b := by
  simp [obind, Option.bind_eq_some]

/-- Inverting a struct deserializer: the payload was an object. -/
theorem objP_eq_some {F : List (String × Json) → Option α} {j : Json} {x : α}
    (h : objP F j = some x) : ∃ o, j = .obj o ∧ F o = some x := by
  cases j with
  | obj o =>
    simp only [objP] at h
    exact ⟨o, rfl, h⟩
  | null => simp [objP] at h
  | bool b => simp [objP] at h
  | num q => simp [objP] at h
  | str s => simp [objP] at h
  | arr xs => simp [objP] at h

/-- Inverting a required-field extraction. -/
theorem reqF_eq_some {o : List (String × Json)} {k : String}
    {p : Json → Option α} {x : α} (h : reqF o k p = some x) :
    ∃ v, lookupJ o k = some v ∧ p v = some x :=
  Option.bind_eq_some.mp h

/-- Inverting an optional-field extraction. -/
theorem optF_eq_some {o : List (String × Json)} {k : String}
    {p : Json → Option α} {y : Option α} (h : optF o k p = some y) :
    (lookupJ o k = none ∧ y = none) ∨
    (lookupJ o k = some .null ∧ y = none) ∨
    (∃ v a, lookupJ o k = some v ∧ v ≠ .null ∧ p v = some a ∧ y = some a) := by
  cases hl : lookupJ o k with
  | none =>
    simp only [optF, hl, Option.some.injEq] at h
    exact Or.inl ⟨rfl, h.symm⟩
  | some v =>
    cases v with
    | null =>
      simp only [optF, hl, Option.some.injEq] at h
      exact Or.inr (Or.inl ⟨rfl, h.symm⟩)
    | bool b =>
      simp only [optF, hl, Option.map_eq_some'] at h
      obtain ⟨a, ha, hy⟩ := h
      exact Or.inr (Or.inr ⟨_, a, rfl, by simp, ha, hy.symm⟩)
    | num q =>
      simp only [optF, hl, Option.map_eq_some'] at h
      obtain ⟨a, ha, hy⟩ := h
      exact Or.inr (Or.inr ⟨_, a, rfl, by simp, ha, hy.symm⟩)
    | str s =>
      simp only [optF, hl, Option.map_eq_some'] at h
      obtain ⟨a, ha, hy⟩ := h
      exact Or.inr (Or.inr ⟨_, a, rfl, by simp, ha, hy.symm⟩)
    | arr xs =>
      simp only [optF, hl, Option.map_eq_some'] at h
      obtain ⟨a, ha, hy⟩ := h
      exact Or.inr (Or.inr ⟨_, a, rfl, by simp, ha, hy.symm⟩)
    | obj fs =>
      simp only [optF, hl, Option.map_eq_some'] at h
      obtain ⟨a, ha, hy⟩ := h
      exact Or.inr (Or.inr ⟨_, a, rfl, by simp, ha, hy.symm⟩)

/-- A successfully decoded string field was a string value. -/
theorem jStr_eq_some {v : Json} {s : String} (h : jStr v = some s) :
    v = .str s := by
  cases v <;> simp_all [jStr]

/-- A successfully decoded float field was a number value. -/
theorem jQ_eq_some {v : Json} {q : ℚ} (h : jQ v = some q) : v = .num q := by
  cases v <;> simp_all [jQ]

/-- A successfully decoded decimal field was a number value. -/
theorem jDec_eq_some {v : Json} {q : ℚ} (h : jDec v = some q) : v = .num q := by
  cases v <;> simp_all [jDec]

/-- A successfully decoded unsigned field was exactly that integral number. -/
theorem jNat_eq_some {b : ℤ} {v : Json} {n : ℕ} (h : jNat b v = some n) :
    v = encNat n := by
  cases v with
  | num q =>
    simp only [jNat] at h
    split at h
    case isTrue hc =>
      obtain ⟨hden, hpos, -⟩ := hc
      obtain rfl : n = q.num.toNat := (Option.some.inj h).symm
      have h1 : (q.num.toNat : ℚ) = q := by
        rw [← Rat.coe_int_num_of_den_eq_one hden]
        exact_mod_cast Int.toNat_of_nonneg hpos
      exact congrArg Json.num h1.symm
    case isFalse => exact absurd h (by simp)
  | null => simp [jNat] at h
  | bool b2 => simp [jNat] at h
  | str s => simp [jNat] at h
  | arr xs => simp [jNat] at h
  | obj fs => simp [jNat] at h

/-- A successfully decoded `i8` field was exactly that integral number. -/
theorem jInt8_eq_some {v : Json} {i : ℤ} (h : jInt8 v = some i) :
    v = .num i := by
  cases v with
  | num q =>
    simp only [jInt8] at h
    split at h
    case isTrue hc =>
      obtain rfl : i = q.num := (Option.some.inj h).symm
      exact congrArg Json.num (Rat.coe_int_num_of_den_eq_one hc.1).symm
    case isFalse => exact absurd h (by simp)
  | null => simp [jInt8] at h
  | bool b2 => simp [jInt8] at h
  | str s => simp [jInt8] at h
  | arr xs => simp [jInt8] at h
  | obj fs => simp [jInt8] at h

/-- A successfully decoded list field was an array value. -/
theorem jList_eq_some {p : Json → Option α} {v : Json} {l : List α}
    (h : jList p v = some l) : ∃ xs, v = .arr xs ∧ mapMJ p xs = some l := by
  cases v with
  | arr xs =>
    simp only [jList] at h
    exact ⟨xs, rfl, h⟩
  | null => simp [jList] at h
  | bool b => simp [jList] at h
  | num q => simp [jList] at h
  | str s => simp [jList] at h
  | obj fs => simp [jList] at h

/-- A list of strings decodes elementwise to exactly its preimage. -/
theorem mapMJ_jStr_eq : ∀ {xs : List Json} {l : List String},
    mapMJ jStr xs = some l → xs = l.map Json.str := by
  intro xs
  induction xs with
  | nil =>
    intro l h
    simp only [mapMJ, Option.some.injEq] at h
    subst h
    rfl
  | cons x xs ih =>
    intro l h
    simp only [mapMJ, Option.bind_eq_some, Option.some.injEq] at h
    obtain ⟨a, ha, l2, hl2, hl⟩ := h
    subst hl
    rw [List.map_cons, ← ih hl2, ← jStr_eq_some ha]

/-- A decoded `Vec<String>` field was exactly its re-serialized array. -/
theorem jListStr_eq {v : Json} {l : List String}
    (h : jList jStr v = some l) : v = encStrList l := by
  obtain ⟨xs, rfl, hm⟩ := jList_eq_some h
  unfold encStrList
  rw [mapMJ_jStr_eq hm]

/-- Elementwise deserialization followed by elementwise re-serialization is
elementwise related whenever each element round-trips. -/
theorem mapMJ_rel {p : Json → Option α} {sr : α → Json} {M : Json → Json → Prop}
    (hM : ∀ j a, p j = some a → M (sr a) j) :
    ∀ {xs : List Json} {l : List α}, mapMJ p xs = some l →
      List.Forall₂ M (l.map sr) xs := by
  intro xs
  induction xs with
  | nil =>
    intro l h
    simp only [mapMJ, Option.some.injEq] at h
    subst h
    exact List.Forall₂.nil
  | cons x xs ih =>
    intro l h
    simp only [mapMJ, Option.bind_eq_some, Option.some.injEq] at h
    obtain ⟨a, ha, l2, hl2, hl⟩ := h
    subst hl
    exact List.Forall₂.cons (hM x a ha) (ih hl2)

/-- Inverting the `Weather` field extraction. -/
theorem weatherF_eq_some {o : List (String × Json)} {w : Weather}
    (h : weatherF o = some w) :
    reqF o "time" (jNat (2 ^ 64)) = some w.time ∧
    reqF o "summary" jStr = some w.summary ∧
    reqF o "icon" jStr = some w.icon ∧
    optF o "nearestStormDistance" jQ = some w.nearest_storm_distance ∧
    optF o "nearestStormBearing" (jNat (2 ^ 16)) = some w.nearest_storm_bearing ∧
    reqF o "precipIntensity" jQ = some w.precip_intensity ∧
    reqF o "precipProbability" jQ = some w.precip_probability ∧
    optF o "precipType" jStr = some w.precip_type ∧
    reqF o "temperature" jQ = some w.temperature ∧
    reqF o "apparentTemperature" jQ = some w.apparent_temperature ∧
    reqF o "dewPoint" jQ = some w.dew_point ∧
    reqF o "humidity" jQ = some w.humidity ∧
    reqF o "pressure" jQ = some w.pressure ∧
    reqF o "windSpeed" jQ = some w.wind_speed ∧
    reqF o "windGust" jQ = some w.wind_gust ∧
    reqF o "windBearing" (jNat (2 ^ 16)) = some w.wind_bearing ∧
    reqF o "cloudCover" jQ = some w.cloud_cover ∧
    reqF o "uvIndex" (jNat (2 ^ 8)) = some w.uv_index ∧
    reqF o "visibility" jQ = some w.visibility ∧
    reqF o "ozone" jQ = some w.ozone := by
  simp only [weatherF, obind_eq_some, Option.some.injEq] at h
  obtain ⟨a1, h1, a2, h2, a3, h3, a4, h4, a5, h5, a6, h6, a7, h7, a8, h8, a9, h9,
    a10, h10, a11, h11, a12, h12, a13, h13, a14, h14, a15, h15, a16, h16,
    a17, h17, a18, h18, a19, h19, a20, h20, heq⟩ := h
  subst heq
  exact ⟨h1, h2, h3, h4, h5, h6, h7, h8, h9, h10, h11, h12, h13, h14, h15,
    h16, h17, h18, h19, h20⟩

/-- Inverting the `Precipation` field extraction. -/
theorem precipationF_eq_some {o : List (String × Json)} {p : Precipation}
    (h : precipationF o = some p) :
    reqF o "time" (jNat (2 ^ 64)) = some p.time ∧
    reqF o "precipIntensity" jQ = some p.precip_intensity ∧
    reqF o "precipProbability" jQ = some p.precip_probability := by
  simp only [precipationF, obind_eq_some, Option.some.injEq] at h
  obtain ⟨a1, h1, a2, h2, a3, h3, heq⟩ := h
  subst heq
  exact ⟨h1, h2, h3⟩

/-- Inverting the `MinutelySeries` field extraction. -/
theorem minutelyF_eq_some {o : List (String × Json)} {m : MinutelySeries}
    (h : minutelyF o = some m) :
    reqF o "summary" jStr = some m.summary ∧
    reqF o "icon" jStr = some m.icon ∧
    reqF o "data" (jList parsePrecipation) = some m.data := by
  simp only [minutelyF, obind_eq_some, Option.some.injEq] at h
  obtain ⟨a1, h1, a2, h2, a3, h3, heq⟩ := h
  subst heq
  exact ⟨h1, h2, h3⟩

/-- Inverting the `HourlySeries` field extraction. -/
theorem hourlyF_eq_some {o : List (String × Json)} {s : HourlySeries}
    (h : hourlyF o = some s) :
    reqF o "summary" jStr = some s.summary ∧
    reqF o "icon" jStr = some s.icon ∧
    reqF o "data" (jList parseWeather) = some s.data := by
  simp only [hourlyF, obind_eq_some, Option.some.injEq] at h
  obtain ⟨a1, h1, a2, h2, a3, h3, heq⟩ := h
  subst heq
  exact ⟨h1, h2, h3⟩

/-- Inverting the `DailyWeather` field extraction. -/
theorem dailyWeatherF_eq_some {o : List (String × Json)} {d : DailyWeather}
    (h : dailyWeatherF o = some d) :
    reqF o "time" (jNat (2 ^ 64)) = some d.time ∧
    reqF o "summary" jStr = some d.summary ∧
    reqF o "icon" jStr = some d.icon ∧
    reqF o "sunriseTime" (jNat (2 ^ 64)) = some d.sunrise_time ∧
    reqF o "sunsetTime" (jNat (2 ^ 64)) = some d.sunset_time ∧
    reqF o "moonPhase" jQ = some d.moon_phase ∧
    reqF o "precipIntensity" jQ = some d.precip_intensity ∧
    reqF o "precipIntensityMax" jQ = some d.precip_intensity_max ∧
    optF o "precipIntensityMaxTime" (jNat (2 ^ 64)) = some d.precip_intensity_max_time ∧
    reqF o "precipProbability" jQ = some d.precip_probability ∧
    optF o "precipType" jStr = some d.precip_type ∧
    reqF o "temperatureHigh" jQ = some d.temperature_high ∧
    reqF o "temperatureHighTime" (jNat (2 ^ 64)) = some d.temperature_high_time ∧
    reqF o "temperatureLow" jQ = some d.temperature_low ∧
    reqF o "temperatureLowTime" (jNat (2 ^ 64)) = some d.temperature_low_time ∧
    reqF o "apparentTemperatureHigh" jQ = some d.apparent_temperature_high ∧
    reqF o "apparentTemperatureHighTime" (jNat (2 ^ 64)) = some d.apparent_temperature_high_time ∧
    reqF o "apparentTemperatureLow" jQ = some d.apparent_temperature_low ∧
    reqF o "apparentTemperatureLowTime" (jNat (2 ^ 64)) = some d.apparent_temperature_low_time ∧
    reqF o "dewPoint" jQ = some d.dew_point ∧
    reqF o "humidity" jQ = some d.humidity ∧
    reqF o "pressure" jQ = some d.pressure ∧
    reqF o "windSpeed" jQ = some d.wind_speed ∧
    reqF o "windGust" jQ = some d.wind_gust ∧
    reqF o "windGustTime" (jNat (2 ^ 64)) = some d.wind_gust_time ∧
    reqF o "windBearing" (jNat (2 ^ 16)) = some d.wind_bearing ∧
    reqF o "cloudCover" jQ = some d.cloud_cover ∧
    reqF o "uvIndex" (jNat (2 ^ 8)) = some d.uv_index ∧
    reqF o "uvIndexTime" (jNat (2 ^ 64)) = some d.uv_index_time ∧
    reqF o "visibility" jQ = some d.visibility ∧
    reqF o "ozone" jQ = some d.ozone := by
  simp only [dailyWeatherF, obind_eq_some, Option.some.injEq] at h
  obtain ⟨a1, h1, a2, h2, a3, h3, a4, h4, a5, h5, a6, h6, a7, h7, a8, h8, a9, h9,
    a10, h10, a11, h11, a12, h12, a13, h13, a14, h14, a15, h15, a16, h16,
    a17, h17, a18, h18, a19, h19, a20, h20, a21, h21, a22, h22, a23, h23,
    a24, h24, a25, h25, a26, h26, a27, h27, a28, h28, a29, h29, a30, h30,
    a31, h31, heq⟩ := h
  subst heq
  exact ⟨h1, h2, h3, h4, h5, h6, h7, h8, h9, h10, h11, h12, h13, h14, h15,
    h16, h17, h18, h19, h20, h21, h22, h23, h24, h25, h26, h27, h28, h29,
    h30, h31⟩

/-- Inverting the `DailySeries` field extraction. -/
theorem dailyF_eq_some {o : List (String × Json)} {s : DailySeries}
    (h : dailyF o = some s) :
    reqF o "summary" jStr = some s.summary ∧
    reqF o "icon" jStr = some s.icon ∧
    reqF o "data" (jList parseDailyWeather) = some s.data := by
  simp only [dailyF, obind_eq_some, Option.some.injEq] at h
  obtain ⟨a1, h1, a2, h2, a3, h3, heq⟩ := h
  subst heq
  exact ⟨h1, h2, h3⟩

/-- Inverting the `Alerts` field extraction. -/
theorem alertsF_eq_some {o : List (String × Json)} {a : Alerts}
    (h : alertsF o = some a) :
    reqF o "title" jStr = some a.title ∧
    reqF o "time" (jNat (2 ^ 64)) = some a.time ∧
    reqF o "expires" (jNat (2 ^ 64)) = some a.expires ∧
    reqF o "description" jStr = some a.description ∧
    reqF o "uri" jStr = some a.uri := by
  simp only [alertsF, obind_eq_some, Option.some.injEq] at h
  obtain ⟨a1, h1, a2, h2, a3, h3, a4, h4, a5, h5, heq⟩ := h
  subst heq
  exact ⟨h1, h2, h3, h4, h5⟩

/-- Inverting the `Flags` field extraction. -/
theorem flagsF_eq_some {o : List (String × Json)} {f : Flags}
    (h : flagsF o = some f) :
    reqF o "sources" (jList jStr) = some f.sources ∧
    reqF o "nearest-station" jQ = some f.nearest_station ∧
    reqF o "units" jStr = some f.units := by
  simp only [flagsF, obind_eq_some, Option.some.injEq] at h
  obtain ⟨a1, h1, a2, h2, a3, h3, heq⟩ := h
  subst heq
  exact ⟨h1, h2, h3⟩

/-- Inverting the `DarkskyResult` field extraction. -/
theorem darkskyF_eq_some {o : List (String × Json)} {r : DarkskyResult}
    (h : darkskyF o = some r) :
    reqF o "latitude" jDec = some r.latitude ∧
    reqF o "longitude" jDec = some r.longitude ∧
    reqF o "timezone" jStr = some r.timezone ∧
    reqF o "currently" parseWeather = some r.currently ∧
    optF o "minutely" parseMinutelySeries = some r.minutely ∧
    reqF o "hourly" parseHourlySeries = some r.hourly ∧
    reqF o "daily" parseDailySeries = some r.daily ∧
    optF o "alerts" (jList parseAlerts) = some r.alerts ∧
    reqF o "flags" parseFlags = some r.flags ∧
    reqF o "offset" jInt8 = some r.offset := by
  simp only [darkskyF, obind_eq_some, Option.some.injEq] at h
  obtain ⟨a1, h1, a2, h2, a3, h3, a4, h4, a5, h5, a6, h6, a7, h7, a8, h8, a9, h9,
    a10, h10, heq⟩ := h
  subst heq
  exact ⟨h1, h2, h3, h4, h5, h6, h7, h8, h9, h10⟩

/-! ## Required fields are present and well-shaped on parser success -/

/-- A decoded unsigned field is a present number field. -/
theorem fieldShapeOk_of_num {o : List (String × Json)} {k : String} {b : ℤ}
    {n : ℕ} (h : reqF o k (jNat b) = some n) : fieldShapeOk o (k, .jnum) := by
  obtain ⟨v, hl, hp⟩ := reqF_eq_some h
  exact ⟨v, hl, by rw [jNat_eq_some hp]; rfl⟩

/-- A decoded float field is a present number field. -/
theorem fieldShapeOk_of_q {o : List (String × Json)} {k : String} {q : ℚ}
    (h : reqF o k jQ = some q) : fieldShapeOk o (k, .jnum) := by
  obtain ⟨v, hl, hp⟩ := reqF_eq_some h
  exact ⟨v, hl, by rw [jQ_eq_some hp]; rfl⟩

/-- A decoded decimal field is a present number field. -/
theorem fieldShapeOk_of_dec {o : List (String × Json)} {k : String} {q : ℚ}
    (h : reqF o k jDec = some q) : fieldShapeOk o (k, .jnum) := by
  obtain ⟨v, hl, hp⟩ := reqF_eq_some h
  exact ⟨v, hl, by rw [jDec_eq_some hp]; rfl⟩

/-- A decoded `i8` field is a present number field. -/
theorem fieldShapeOk_of_int8 {o : List (String × Json)} {k : String} {i : ℤ}
    (h : reqF o k jInt8 = some i) : fieldShapeOk o (k, .jnum) := by
  obtain ⟨v, hl, hp⟩ := reqF_eq_some h
  exact ⟨v, hl, by rw [jInt8_eq_some hp]; rfl⟩

/-- A decoded string field is a present string field. -/
theorem fieldShapeOk_of_str {o : List (String × Json)} {k : String} {s : String}
    (h : reqF o k jStr = some s) : fieldShapeOk o (k, .jstr) := by
  obtain ⟨v, hl, hp⟩ := reqF_eq_some h
  exact ⟨v, hl, by rw [jStr_eq_some hp]; rfl⟩

/-- A decoded list field is a present array field. -/
theorem fieldShapeOk_of_list {o : List (String × Json)} {k : String}
    {p : Json → Option α} {l : List α} (h : reqF o k (jList p) = some l) :
    fieldShapeOk o (k, .jarr) := by
  obtain ⟨v, hl, hp⟩ := reqF_eq_some h
  obtain ⟨xs, rfl, -⟩ := jList_eq_some hp
  exact ⟨_, hl, rfl⟩

/-- A decoded nested-struct field is a present object field. -/
theorem fieldShapeOk_of_objP {o : List (String × Json)} {k : String}
    {F : List (String × Json) → Option α} {x : α}
    (h : reqF o k (objP F) = some x) : fieldShapeOk o (k, .jobj) := by
  obtain ⟨v, hl, hp⟩ := reqF_eq_some h
  obtain ⟨o2, rfl, -⟩ := objP_eq_some hp
  exact ⟨_, hl, rfl⟩

/-- A successfully extracted `Weather` has all its required fields. -/
theorem weatherF_required {o : List (String × Json)} {w : Weather}
    (h : weatherF o = some w) : ∀ kt ∈ reqKeysWeather, fieldShapeOk o kt := by
  obtain ⟨h1, h2, h3, -, -, h6, h7, -, h9, h10, h11, h12, h13, h14, h15, h16,
    h17, h18, h19, h20⟩ := weatherF_eq_some h
  intro kt hkt
  simp only [reqKeysWeather, List.mem_cons, List.not_mem_nil, or_false] at hkt
  rcases hkt with rfl | rfl | rfl | rfl | rfl | rfl | rfl | rfl | rfl | rfl |
    rfl | rfl | rfl | rfl | rfl | rfl | rfl
  · exact fieldShapeOk_of_num h1
  · exact fieldShapeOk_of_str h2
  · exact fieldShapeOk_of_str h3
  · exact fieldShapeOk_of_q h6
  · exact fieldShapeOk_of_q h7
  · exact fieldShapeOk_of_q h9
  · exact fieldShapeOk_of_q h10
  · exact fieldShapeOk_of_q h11
  · exact fieldShapeOk_of_q h12
  · exact fieldShapeOk_of_q h13
  · exact fieldShapeOk_of_q h14
  · exact fieldShapeOk_of_q h15
  · exact fieldShapeOk_of_num h16
  · exact fieldShapeOk_of_q h17
  · exact fieldShapeOk_of_num h18
  · exact fieldShapeOk_of_q h19
  · exact fieldShapeOk_of_q h20

/-- A successfully extracted `Precipation` has all its required fields. -/
theorem precipationF_required {o : List (String × Json)} {p : Precipation}
    (h : precipationF o = some p) :
    ∀ kt ∈ reqKeysPrecipation, fieldShapeOk o kt := by
  obtain ⟨h1, h2, h3⟩ := precipationF_eq_some h
  intro kt hkt
  simp only [reqKeysPrecipation, List.mem_cons, List.not_mem_nil, or_false] at hkt
  rcases hkt with rfl | rfl | rfl
  · exact fieldShapeOk_of_num h1
  · exact fieldShapeOk_of_q h2
  · exact fieldShapeOk_of_q h3

/-- A successfully extracted `MinutelySeries` has all its required fields. -/
theorem minutelyF_required {o : List (String × Json)} {m : MinutelySeries}
    (h : minutelyF o = some m) : ∀ kt ∈ reqKeysSeries, fieldShapeOk o kt := by
  obtain ⟨h1, h2, h3⟩ := minutelyF_eq_some h
  intro kt hkt
  simp only [reqKeysSeries, List.mem_cons, List.not_mem_nil, or_false] at hkt
  rcases hkt with rfl | rfl | rfl
  · exact fieldShapeOk_of_str h1
  · exact fieldShapeOk_of_str h2
  · exact fieldShapeOk_of_list h3

/-- A successfully extracted `HourlySeries` has all its required fields. -/
theorem hourlyF_required {o : List (String × Json)} {s : HourlySeries}
    (h : hourlyF o = some s) : ∀ kt ∈ reqKeysSeries, fieldShapeOk o kt := by
  obtain ⟨h1, h2, h3⟩ := hourlyF_eq_some h
  intro kt hkt
  simp only [reqKeysSeries, List.mem_cons, List.not_mem_nil, or_false] at hkt
  rcases hkt with rfl | rfl | rfl
  · exact fieldShapeOk_of_str h1
  · exact fieldShapeOk_of_str h2
  · exact fieldShapeOk_of_list h3

/-- A successfully extracted `DailyWeather` has all its required fields. -/
theorem dailyWeatherF_required {o : List (String × Json)} {d : DailyWeather}
    (h : dailyWeatherF o = some d) :
    ∀ kt ∈ reqKeysDailyWeather, fieldShapeOk o kt := by
  obtain ⟨h1, h2, h3, h4, h5, h6, h7, h8, -, h10, -, h12, h13, h14, h15, h16,
    h17, h18, h19, h20, h21, h22, h23, h24, h25, h26, h27, h28, h29, h30,
    h31⟩ := dailyWeatherF_eq_some h
  intro kt hkt
  simp only [reqKeysDailyWeather, List.mem_cons, List.not_mem_nil, or_false] at hkt
  rcases hkt with rfl | rfl | rfl | rfl | rfl | rfl | rfl | rfl | rfl | rfl |
    rfl | rfl | rfl | rfl | rfl | rfl | rfl | rfl | rfl | rfl | rfl | rfl |
    rfl | rfl | rfl | rfl | rfl | rfl | rfl
  · exact fieldShapeOk_of_num h1
  · exact fieldShapeOk_of_str h2
  · exact fieldShapeOk_of_str h3
  · exact fieldShapeOk_of_num h4
  · exact fieldShapeOk_of_num h5
  · exact fieldShapeOk_of_q h6
  · exact fieldShapeOk_of_q h7
  · exact fieldShapeOk_of_q h8
  · exact fieldShapeOk_of_q h10
  · exact fieldShapeOk_of_q h12
  · exact fieldShapeOk_of_num h13
  · exact fieldShapeOk_of_q h14
  · exact fieldShapeOk_of_num h15
  · exact fieldShapeOk_of_q h16
  · exact fieldShapeOk_of_num h17
  · exact fieldShapeOk_of_q h18
  · exact fieldShapeOk_of_num h19
  · exact fieldShapeOk_of_q h20
  · exact fieldShapeOk_of_q h21
  · exact fieldShapeOk_of_q h22
  · exact fieldShapeOk_of_q h23
  · exact fieldShapeOk_of_q h24
  · exact fieldShapeOk_of_num h25
  · exact fieldShapeOk_of_num h26
  · exact fieldShapeOk_of_q h27
  · exact fieldShapeOk_of_num h28
  · exact fieldShapeOk_of_num h29
  · exact fieldShapeOk_of_q h30
  · exact fieldShapeOk_of_q h31

/-- A successfully extracted `DailySeries` has all its required fields. -/
theorem dailyF_required {o : List (String × Json)} {s : DailySeries}
    (h : dailyF o = some s) : ∀ kt ∈ reqKeysSeries, fieldShapeOk o kt := by
  obtain ⟨h1, h2, h3⟩ := dailyF_eq_some h
  intro kt hkt
  simp only [reqKeysSeries, List.mem_cons, List.not_mem_nil, or_false] at hkt
  rcases hkt with rfl | rfl | rfl
  · exact fieldShapeOk_of_str h1
  · exact fieldShapeOk_of_str h2
  · exact fieldShapeOk_of_list h3

/-- A successfully extracted `Alerts` has all its required fields. -/
theorem alertsF_required {o : List (String × Json)} {a : Alerts}
    (h : alertsF o = some a) : ∀ kt ∈ reqKeysAlerts, fieldShapeOk o kt := by
  obtain ⟨h1, h2, h3, h4, h5⟩ := alertsF_eq_some h
  intro kt hkt
  simp only [reqKeysAlerts, List.mem_cons, List.not_mem_nil, or_false] at hkt
  rcases hkt with rfl | rfl | rfl | rfl | rfl
  · exact fieldShapeOk_of_str h1
  · exact fieldShapeOk_of_num h2
  · exact fieldShapeOk_of_num h3
  · exact fieldShapeOk_of_str h4
  · exact fieldShapeOk_of_str h5

/-- A successfully extracted `Flags` has all its required fields. -/
theorem flagsF_required {o : List (String × Json)} {f : Flags}
    (h : flagsF o = some f) : ∀ kt ∈ reqKeysFlags, fieldShapeOk o kt := by
  obtain ⟨h1, h2, h3⟩ := flagsF_eq_some h
  intro kt hkt
  simp only [reqKeysFlags, List.mem_cons, List.not_mem_nil, or_false] at hkt
  rcases hkt with rfl | rfl | rfl
  · exact fieldShapeOk_of_list h1
  · exact fieldShapeOk_of_q h2
  · exact fieldShapeOk_of_str h3

/-- A successfully parsed `DarkskyResult` has all its required fields. -/
theorem darkskyF_required {o : List (String × Json)} {r : DarkskyResult}
    (h : darkskyF o = some r) : ∀ kt ∈ reqKeysDarksky, fieldShapeOk o kt := by
  obtain ⟨h1, h2, h3, h4, -, h6, h7, -, h9, h10⟩ := darkskyF_eq_some h
  intro kt hkt
  simp only [reqKeysDarksky, List.mem_cons, List.not_mem_nil, or_false] at hkt
  rcases hkt with rfl | rfl | rfl | rfl | rfl | rfl | rfl | rfl
  · exact fieldShapeOk_of_dec h1
  · exact fieldShapeOk_of_dec h2
  · exact fieldShapeOk_of_str h3
  · exact fieldShapeOk_of_objP h4
  · exact fieldShapeOk_of_objP h6
  · exact fieldShapeOk_of_objP h7
  · exact fieldShapeOk_of_objP h9
  · exact fieldShapeOk_of_int8 h10

/-! ## Re-serialization agrees with the input payload -/

/-- A required leaf field re-serializes to the identical JSON value. -/
theorem eqAt_req {oOut o : List (String × Json)} {k : String}
    {p : Json → Option α} {enc : α → Json} {x : α}
    (hpe : ∀ v a, p v = some a → v = enc a)
    (h : reqF o k p = some x) (hOut : lookupJ oOut k = some (enc x)) :
    eqAt oOut o k := by
  obtain ⟨v, hl, hp⟩ := reqF_eq_some h
  unfold eqAt
  rw [hOut, hl, hpe v x hp]

/-- Round-trip agreement for an optional field whose present values satisfy
`M` after re-serialization. -/
theorem optObjRT_of_optF {oOut o : List (String × Json)} {k : String}
    {p : Json → Option α} {enc : α → Json} {M : Json → Json → Prop}
    {y : Option α} (hM : ∀ v a, p v = some a → M (enc a) v)
    (h : optF o k p = some y)
    (hOut : lookupJ oOut k = some (jOpt enc y)) : optObjRT oOut o k M := by
  rcases optF_eq_some h with ⟨hl, rfl⟩ | ⟨hl, rfl⟩ | ⟨v, a, hl, hne, hp, rfl⟩
  · refine ⟨fun _ => hOut, fun hc => ?_, fun v hv hvne => ?_⟩
    · rw [hl] at hc
      exact Option.noConfusion hc
    · rw [hl] at hv
      exact Option.noConfusion hv
  · refine ⟨fun hc => ?_, fun _ => hOut, fun v hv hvne => ?_⟩
    · rw [hl] at hc
      exact Option.noConfusion hc
    · rw [hl] at hv
      exact absurd (Option.some.inj hv).symm hvne
  · refine ⟨fun hc => ?_, fun hc => ?_, fun v2 hv2 hvne2 => ?_⟩
    · rw [hl] at hc
      exact Option.noConfusion hc
    · rw [hl] at hc
      exact absurd (Option.some.inj hc) hne
    · rw [hl] at hv2
      obtain rfl : v = v2 := Option.some.inj hv2
      exact ⟨enc a, hOut, hM v a hp⟩

/-- Round-trip agreement for a required nested field whose value satisfies
`M` after re-serialization. -/
theorem reqObjRT_of_reqF {oOut o : List (String × Json)} {k : String}
    {p : Json → Option α} {sr : α → Json} {M : Json → Json → Prop} {x : α}
    (hM : ∀ j a, p j = some a → M (sr a) j)
    (h : reqF o k p = some x) (hOut : lookupJ oOut k = some (sr x)) :
    reqObjRT oOut o k M := by
  obtain ⟨v, hl, hp⟩ := reqF_eq_some h
  exact ⟨sr x, v, hOut, hl, hM v x hp⟩

/-- Elementwise round-trip agreement for a decoded array. -/
theorem arrMatch_of_jList {p : Json → Option α} {sr : α → Json}
    {M : Json → Json → Prop} (hM : ∀ j a, p j = some a → M (sr a) j) :
    ∀ {v : Json} {l : List α}, jList p v = some l →
      arrMatch M (.arr (l.map sr)) v := by
  intro v l h
  obtain ⟨xs, rfl, hm⟩ := jList_eq_some h
  exact ⟨l.map sr, xs, rfl, rfl, mapMJ_rel hM hm⟩

/-- A parsed `Precipation` re-serializes in agreement with its input. -/
theorem precipation_rt : ∀ {j : Json} {p : Precipation},
    parsePrecipation j = some p →
    matchesObj serMatchesPrecipation (serializePrecipation p) j := by
  intro j p h
  obtain ⟨o, rfl, hF⟩ := objP_eq_some h
  obtain ⟨h1, h2, h3⟩ := precipationF_eq_some hF
  refine ⟨serFieldsPrecipation p, o, rfl, rfl, ?_, ?_, ?_⟩
  · exact eqAt_req (fun _ _ hh => jNat_eq_some hh) h1 rfl
  · exact eqAt_req (fun _ _ hh => jQ_eq_some hh) h2 rfl
  · exact eqAt_req (fun _ _ hh => jQ_eq_some hh) h3 rfl

/-- A parsed `Weather` re-serializes in agreement with its input. -/
theorem weather_rt : ∀ {j : Json} {w : Weather},
    parseWeather j = some w →
    matchesObj serMatchesWeather (serializeWeather w) j := by
  intro j w h
  obtain ⟨o, rfl, hF⟩ := objP_eq_some h
  obtain ⟨h1, h2, h3, h4, h5, h6, h7, h8, h9, h10, h11, h12, h13, h14, h15,
    h16, h17, h18, h19, h20⟩ := weatherF_eq_some hF
  refine ⟨serFieldsWeather w, o, rfl, rfl, ?_, ?_, ?_, ?_, ?_, ?_, ?_, ?_, ?_,
    ?_, ?_, ?_, ?_, ?_, ?_, ?_, ?_, ?_, ?_, ?_⟩
  · exact eqAt_req (fun _ _ hh => jNat_eq_some hh) h1 rfl
  · exact eqAt_req (fun _ _ hh => jStr_eq_some hh) h2 rfl
  · exact eqAt_req (fun _ _ hh => jStr_eq_some hh) h3 rfl
  · exact optObjRT_of_optF (fun _ _ hh => (jQ_eq_some hh).symm) h4 rfl
  · exact optObjRT_of_optF (fun _ _ hh => (jNat_eq_some hh).symm) h5 rfl
  · exact eqAt_req (fun _ _ hh => jQ_eq_some hh) h6 rfl
  · exact eqAt_req (fun _ _ hh => jQ_eq_some hh) h7 rfl
  · exact optObjRT_of_optF (fun _ _ hh => (jStr_eq_some hh).symm) h8 rfl
  · exact eqAt_req (fun _ _ hh => jQ_eq_some hh) h9 rfl
  · exact eqAt_req (fun _ _ hh => jQ_eq_some hh) h10 rfl
  · exact eqAt_req (fun _ _ hh => jQ_eq_some hh) h11 rfl
  · exact eqAt_req (fun _ _ hh => jQ_eq_some hh) h12 rfl
  · exact eqAt_req (fun _ _ hh => jQ_eq_some hh) h13 rfl
  · exact eqAt_req (fun _ _ hh => jQ_eq_some hh) h14 rfl
  · exact eqAt_req (fun _ _ hh => jQ_eq_some hh) h15 rfl
  · exact eqAt_req (fun _ _ hh => jNat_eq_some hh) h16 rfl
  · exact eqAt_req (fun _ _ hh => jQ_eq_some hh) h17 rfl
  · exact eqAt_req (fun _ _ hh => jNat_eq_some hh) h18 rfl
  · exact eqAt_req (fun _ _ hh => jQ_eq_some hh) h19 rfl
  · exact eqAt_req (fun _ _ hh => jQ_eq_some hh) h20 rfl

/-- A parsed `DailyWeather` re-serializes in agreement with its input. -/
theorem dailyWeather_rt : ∀ {j : Json} {d : DailyWeather},
    parseDailyWeather j = some d →
    matchesObj serMatchesDailyWeather (serializeDailyWeather d) j := by
  intro j d h
  obtain ⟨o, rfl, hF⟩ := objP_eq_some h
  obtain ⟨h1, h2, h3, h4, h5, h6, h7, h8, h9, h10, h11, h12, h13, h14, h15,
    h16, h17, h18, h19, h20, h21, h22, h23, h24, h25, h26, h27, h28, h29,
    h30, h31⟩ := dailyWeatherF_eq_some hF
  refine ⟨serFieldsDailyWeather d, o, rfl, rfl, ?_, ?_, ?_, ?_, ?_, ?_, ?_,
    ?_, ?_, ?_, ?_, ?_, ?_, ?_, ?_, ?_, ?_, ?_, ?_, ?_, ?_, ?_, ?_, ?_, ?_,
    ?_, ?_, ?_, ?_, ?_, ?_⟩
  · exact eqAt_req (fun _ _ hh => jNat_eq_some hh) h1 rfl
  · exact eqAt_req (fun _ _ hh => jStr_eq_some hh) h2 rfl
  · exact eqAt_req (fun _ _ hh => jStr_eq_some hh) h3 rfl
  · exact eqAt_req (fun _ _ hh => jNat_eq_some hh) h4 rfl
  · exact eqAt_req (fun _ _ hh => jNat_eq_some hh) h5 rfl
  · exact eqAt_req (fun _ _ hh => jQ_eq_some hh) h6 rfl
  · exact eqAt_req (fun _ _ hh => jQ_eq_some hh) h7 rfl
  · exact eqAt_req (fun _ _ hh => jQ_eq_some hh) h8 rfl
  · exact optObjRT_of_optF (fun _ _ hh => (jNat_eq_some hh).symm) h9 rfl
  · exact eqAt_req (fun _ _ hh => jQ_eq_some hh) h10 rfl
  · exact optObjRT_of_optF (fun _ _ hh => (jStr_eq_some hh).symm) h11 rfl
  · exact eqAt_req (fun _ _ hh => jQ_eq_some hh) h12 rfl
  · exact eqAt_req (fun _ _ hh => jNat_eq_some hh) h13 rfl
  · exact eqAt_req (fun _ _ hh => jQ_eq_some hh) h14 rfl
  · exact eqAt_req (fun _ _ hh => jNat_eq_some hh) h15 rfl
  · exact eqAt_req (fun _ _ hh => jQ_eq_some hh) h16 rfl
  · exact eqAt_req (fun _ _ hh => jNat_eq_some hh) h17 rfl
  · exact eqAt_req (fun _ _ hh => jQ_eq_some hh) h18 rfl
  · exact eqAt_req (fun _ _ hh => jNat_eq_some hh) h19 rfl
  · exact eqAt_req (fun _ _ hh => jQ_eq_some hh) h20 rfl
  · exact eqAt_req (fun _ _ hh => jQ_eq_some hh) h21 rfl
  · exact eqAt_req (fun _ _ hh => jQ_eq_some hh) h22 rfl
  · exact eqAt_req (fun _ _ hh => jQ_eq_some hh) h23 rfl
  · exact eqAt_req (fun _ _ hh => jQ_eq_some hh) h24 rfl
  · exact eqAt_req (fun _ _ hh => jNat_eq_some hh) h25 rfl
  · exact eqAt_req (fun _ _ hh => jNat_eq_some hh) h26 rfl
  · exact eqAt_req (fun _ _ hh => jQ_eq_some hh) h27 rfl
  · exact eqAt_req (fun _ _ hh => jNat_eq_some hh) h28 rfl
  · exact eqAt_req (fun _ _ hh => jNat_eq_some hh) h29 rfl
  · exact eqAt_req (fun _ _ hh => jQ_eq_some hh) h30 rfl
  · exact eqAt_req (fun _ _ hh => jQ_eq_some hh) h31 rfl

/-- A parsed `Alerts` re-serializes in agreement with its input. -/
theorem alerts_rt : ∀ {j : Json} {a : Alerts},
    parseAlerts j = some a →
    matchesObj serMatchesAlerts (serializeAlerts a) j := by
  intro j a h
  obtain ⟨o, rfl, hF⟩ := objP_eq_some h
  obtain ⟨h1, h2, h3, h4, h5⟩ := alertsF_eq_some hF
  refine ⟨serFieldsAlerts a, o, rfl, rfl, ?_, ?_, ?_, ?_, ?_⟩
  · exact eqAt_req (fun _ _ hh => jStr_eq_some hh) h1 rfl
  · exact eqAt_req (fun _ _ hh => jNat_eq_some hh) h2 rfl
  · exact eqAt_req (fun _ _ hh => jNat_eq_some hh) h3 rfl
  · exact eqAt_req (fun _ _ hh => jStr_eq_some hh) h4 rfl
  · exact eqAt_req (fun _ _ hh => jStr_eq_some hh) h5 rfl

/-- A parsed `MinutelySeries` re-serializes in agreement with its input. -/
theorem minutely_rt : ∀ {j : Json} {m : MinutelySeries},
    parseMinutelySeries j = some m →
    matchesObj serMatchesMinutely (serializeMinutelySeries m) j := by
  intro j m h
  obtain ⟨o, rfl, hF⟩ := objP_eq_some h
  obtain ⟨h1, h2, h3⟩ := minutelyF_eq_some hF
  refine ⟨serFieldsMinutely m, o, rfl, rfl, ?_, ?_, ?_⟩
  · exact eqAt_req (fun _ _ hh => jStr_eq_some hh) h1 rfl
  · exact eqAt_req (fun _ _ hh => jStr_eq_some hh) h2 rfl
  · exact reqObjRT_of_reqF
      (fun _ _ ha => arrMatch_of_jList (fun _ _ hx => precipation_rt hx) ha)
      h3 rfl

/-- A parsed `HourlySeries` re-serializes in agreement with its input. -/
theorem hourly_rt : ∀ {j : Json} {s : HourlySeries},
    parseHourlySeries j = some s →
    matchesObj serMatchesHourly (serializeHourlySeries s) j := by
  intro j s h
  obtain ⟨o, rfl, hF⟩ := objP_eq_some h
  obtain ⟨h1, h2, h3⟩ := hourlyF_eq_some hF
  refine ⟨serFieldsHourly s, o, rfl, rfl, ?_, ?_, ?_⟩
  · exact eqAt_req (fun _ _ hh => jStr_eq_some hh) h1 rfl
  · exact eqAt_req (fun _ _ hh => jStr_eq_some hh) h2 rfl
  · exact reqObjRT_of_reqF
      (fun _ _ ha => arrMatch_of_jList (fun _ _ hx => weather_rt hx) ha)
      h3 rfl

/-- A parsed `DailySeries` re-serializes in agreement with its input. -/
theorem daily_rt : ∀ {j : Json} {s : DailySeries},
    parseDailySeries j = some s →
    matchesObj serMatchesDaily (serializeDailySeries s) j := by
  intro j s h
  obtain ⟨o, rfl, hF⟩ := objP_eq_some h
  obtain ⟨h1, h2, h3⟩ := dailyF_eq_some hF
  refine ⟨serFieldsDaily s, o, rfl, rfl, ?_, ?_, ?_⟩
  · exact eqAt_req (fun _ _ hh => jStr_eq_some hh) h1 rfl
  · exact eqAt_req (fun _ _ hh => jStr_eq_some hh) h2 rfl
  · exact reqObjRT_of_reqF
      (fun _ _ ha => arrMatch_of_jList (fun _ _ hx => dailyWeather_rt hx) ha)
      h3 rfl

/-- A parsed `Flags` re-serializes in agreement with its input. -/
theorem flags_rt : ∀ {j : Json} {f : Flags},
    parseFlags j = some f →
    matchesObj serMatchesFlags (serializeFlags f) j := by
  intro j f h
  obtain ⟨o, rfl, hF⟩ := objP_eq_some h
  obtain ⟨h1, h2, h3⟩ := flagsF_eq_some hF
  refine ⟨serFieldsFlags f, o, rfl, rfl, ?_, ?_, ?_⟩
  · exact eqAt_req (fun _ _ hh => jListStr_eq hh) h1 rfl
  · exact eqAt_req (fun _ _ hh => jQ_eq_some hh) h2 rfl
  · exact eqAt_req (fun _ _ hh => jStr_eq_some hh) h3 rfl

/-! ## Claims about the formatting operations -/

/-- C1: for every `ForecastResult`, the summary string is the temperature to
one decimal place, `°`, the unit label, a space, the icon glyph (possibly
empty), a space, and the summary text; on `temperature = 72.34` (as `f32`),
`units = "us"`, `icon = "clear-day"`, `summary = "Clear"` the output is
exactly `"72.3°F ☀️ Clear"`. -/
theorem summary_output_format :
    (∀ r : DarkskyResult, r.get_current_weather_str =
      fmtFixed1 r.currently.temperature ++ "°" ++ r.get_unit ++ " " ++
        get_weather_icon r.currently.icon ++ " " ++ r.currently.summary) ∧
    exResult.get_current_weather_str = "72.3°F ☀️ Clear" :=
  ⟨fun _ => rfl, by decide⟩

/-- C2: the unit label is `"F"` exactly when `flags.units = "us"` and `"C"`
for every other string, with no error path. -/
theorem unit_label_resolution (r : DarkskyResult) :
    (r.flags.units = "us" → r.get_unit = "F") ∧
    (r.flags.units ≠ "us" → r.get_unit = "C") := by
  constructor <;> intro h <;> simp [DarkskyResult.get_unit, h]

/-- Witness for C2 at concrete inputs (`us` and the unrecognized `uk2`). -/
theorem unit_label_resolution_witness :
    exResult.get_unit = "F" ∧ exResultUk2.get_unit = "C" :=
  ⟨(unit_label_resolution exResult).1 rfl,
   (unit_label_resolution exResultUk2).2 (by decide)⟩

/-- C3: `get_weather_icon` realizes the thirteen-entry exact-match table and
returns the empty string on every other input. -/
theorem icon_resolution_table (s : String) :
    (s = "clear-day" → get_weather_icon s = "☀️") ∧
    (s = "clear-night" → get_weather_icon s = "🌙") ∧
    (s = "rain" → get_weather_icon s = "🌧") ∧
    (s = "snow" → get_weather_icon s = "🌨") ∧
    (s = "sleet" → get_weather_icon s = "🌨") ∧
    (s = "wind" → get_weather_icon s = "💨") ∧
    (s = "fog" → get_weather_icon s = "🌫") ∧
    (s = "cloudy" → get_weather_icon s = "☁️") ∧
    (s = "partly-cloudy-day" → get_weather_icon s = "⛅️") ∧
    (s = "partly-cloudy-night" → get_weather_icon s = "🌙") ∧
    (s = "hail" → get_weather_icon s = "🌧") ∧
    (s = "thunderstorm" → get_weather_icon s = "⛈") ∧
    (s = "tornado" → get_weather_icon s = "🌪") ∧
    (s ∉ recognizedIcons → get_weather_icon s = "") := by
  refine ⟨?_, ?_, ?_, ?_, ?_, ?_, ?_, ?_, ?_, ?_, ?_, ?_, ?_,
    fun h => get_weather_icon_unrecognized h⟩ <;>
    (rintro rfl; rfl)

/-- Witness for C3 at a table entry and at an unmatched string. -/
theorem icon_resolution_table_witness :
    get_weather_icon "clear-day" = "☀️" ∧ get_weather_icon "bogus-icon" = "" :=
  ⟨(icon_resolution_table "clear-day").1 rfl,
   (icon_resolution_table "bogus-icon").2.2.2.2.2.2.2.2.2.2.2.2.2 (by decide)⟩

/-- C6: `summary` is total — for every syntactically valid result, including
unrecognized `units` and `icon` strings, it yields a (nonempty) string, and
the unit label is always one of `"F"`/`"C"` (no error path). -/
theorem summary_total (r : DarkskyResult) :
    0 < r.get_current_weather_str.length ∧
    (r.get_unit = "F" ∨ r.get_unit = "C") := by
  constructor
  · have h1 : (("°" : String)).length = 1 := rfl
    simp only [DarkskyResult.get_current_weather_str, String.length_append]
    omega
  · by_cases h : r.flags.units = "us" <;> simp [DarkskyResult.get_unit, h]

/-- C8: the `Display` rendering returns exactly the summary string. -/
theorem display_equals_summary (r : DarkskyResult) :
    r.toDisplayString = r.get_current_weather_str := rfl

/-- C9: with an unrecognized icon the glyph is empty, so the two fixed
separators yield two consecutive spaces between unit label and summary. -/
theorem unknown_icon_double_space (r : DarkskyResult)
    (h : r.currently.icon ∉ recognizedIcons) :
    r.get_current_weather_str =
      fmtFixed1 r.currently.temperature ++ "°" ++ r.get_unit ++ "  " ++
        r.currently.summary := by
  simp only [DarkskyResult.get_current_weather_str, get_weather_icon_unrecognized h,
    String.append_empty, String.append_assoc]
  have hsp : (" " : String) ++ (" " ++ r.currently.summary) =
      "  " ++ r.currently.summary :=
    (String.append_assoc " " " " r.currently.summary).symm
  rw [hsp]

/-- Witness for C9 at a concrete result with icon `"bogus-icon"`. -/
theorem unknown_icon_double_space_witness :
    exResultBogus.get_current_weather_str =
      fmtFixed1 exResultBogus.currently.temperature ++ "°" ++
        exResultBogus.get_unit ++ "  " ++ exResultBogus.currently.summary :=
  unknown_icon_double_space exResultBogus (by decide)

/-- C10: the summary depends only on `currently.temperature`,
`currently.icon`, `currently.summary` and `flags.units`. -/
theorem summary_depends_only_on_four_fields (r1 r2 : DarkskyResult)
    (ht : r1.currently.temperature = r2.currently.temperature)
    (hi : r1.currently.icon = r2.currently.icon)
    (hs : r1.currently.summary = r2.currently.summary)
    (hu : r1.flags.units = r2.flags.units) :
    r1.get_current_weather_str = r2.get_current_weather_str := by
  simp only [DarkskyResult.get_current_weather_str, DarkskyResult.get_unit,
    ht, hi, hs, hu]

/-- Witness for C10: two results differing in timezone, coordinates, offset
and hourly summary render identically. -/
theorem summary_depends_only_on_four_fields_witness :
    exResult.get_current_weather_str = exResultOtherMeta.get_current_weather_str :=
  summary_depends_only_on_four_fields exResult exResultOtherMeta rfl rfl rfl rfl

/-- C7: the request URL is the base endpoint, the percent-encoded API key,
`/`, and the two coordinates in decimal form joined by a comma; with
`apiKey = "abc 123"`, `lat = 10.5`, `lng = -20.25` the space is
percent-encoded and `10.5,-20.25` is embedded verbatim. -/
theorem request_url_construction :
    (∀ (k : String) (la ln : RDecimal), buildRequestUrl k la ln =
      DARKSKY_FORECAST_URL ++ urlencode k ++ "/" ++
        la.toDecString ++ "," ++ ln.toDecString) ∧
    buildRequestUrl "abc 123" ⟨105, 1⟩ ⟨-2025, 2⟩ =
      "https://api.darksky.net/forecast/abc%20123/10.5,-20.25" :=
  ⟨fun _ _ _ => rfl, by decide⟩

/-! ## Claims about (de)serialization -/

/-- C4: for every object payload of any entity of the data model that is
missing a required (non-optional) field or carries a type-mismatched value
for one, deserialization fails with an error (`none` — no partial result);
moreover a failing required nested object (`currently`, `hourly`, `daily`,
`flags`) fails the whole top-level parse. -/
theorem parse_rejects_missing_or_mistyped_required_fields :
    (∀ o, (∃ kt ∈ reqKeysDarksky, ¬ fieldShapeOk o kt) →
      parseDarkskyResult (.obj o) = none) ∧
    (∀ o, (∃ kt ∈ reqKeysWeather, ¬ fieldShapeOk o kt) →
      parseWeather (.obj o) = none) ∧
    (∀ o, (∃ kt ∈ reqKeysPrecipation, ¬ fieldShapeOk o kt) →
      parsePrecipation (.obj o) = none) ∧
    (∀ o, (∃ kt ∈ reqKeysSeries, ¬ fieldShapeOk o kt) →
      parseMinutelySeries (.obj o) = none) ∧
    (∀ o, (∃ kt ∈ reqKeysSeries, ¬ fieldShapeOk o kt) →
      parseHourlySeries (.obj o) = none) ∧
    (∀ o, (∃ kt ∈ reqKeysDailyWeather, ¬ fieldShapeOk o kt) →
      parseDailyWeather (.obj o) = none) ∧
    (∀ o, (∃ kt ∈ reqKeysSeries, ¬ fieldShapeOk o kt) →
      parseDailySeries (.obj o) = none) ∧
    (∀ o, (∃ kt ∈ reqKeysAlerts, ¬ fieldShapeOk o kt) →
      parseAlerts (.obj o) = none) ∧
    (∀ o, (∃ kt ∈ reqKeysFlags, ¬ fieldShapeOk o kt) →
      parseFlags (.obj o) = none) ∧
    (∀ o v, lookupJ o "currently" = some v → parseWeather v = none →
      parseDarkskyResult (.obj o) = none) ∧
    (∀ o v, lookupJ o "hourly" = some v → parseHourlySeries v = none →
      parseDarkskyResult (.obj o) = none) ∧
    (∀ o v, lookupJ o "daily" = some v → parseDailySeries v = none →
      parseDarkskyResult (.obj o) = none) ∧
    (∀ o v, lookupJ o "flags" = some v → parseFlags v = none →
      parseDarkskyResult (.obj o) = none) := by
  refine ⟨?_, ?_, ?_, ?_, ?_, ?_, ?_, ?_, ?_, ?_, ?_, ?_, ?_⟩
  · intro o hbad
    cases hp : parseDarkskyResult (.obj o) with
    | none => rfl
    | some r =>
      obtain ⟨kt, hmem, hns⟩ := hbad
      exact absurd (darkskyF_required (show darkskyF o = some r from hp) kt hmem) hns
  · intro o hbad
    cases hp : parseWeather (.obj o) with
    | none => rfl
    | some w =>
      obtain ⟨kt, hmem, hns⟩ := hbad
      exact absurd (weatherF_required (show weatherF o = some w from hp) kt hmem) hns
  · intro o hbad
    cases hp : parsePrecipation (.obj o) with
    | none => rfl
    | some p =>
      obtain ⟨kt, hmem, hns⟩ := hbad
      exact absurd (precipationF_required (show precipationF o = some p from hp) kt hmem) hns
  · intro o hbad
    cases hp : parseMinutelySeries (.obj o) with
    | none => rfl
    | some m =>
      obtain ⟨kt, hmem, hns⟩ := hbad
      exact absurd (minutelyF_required (show minutelyF o = some m from hp) kt hmem) hns
  · intro o hbad
    cases hp : parseHourlySeries (.obj o) with
    | none => rfl
    | some s =>
      obtain ⟨kt, hmem, hns⟩ := hbad
      exact absurd (hourlyF_required (show hourlyF o = some s from hp) kt hmem) hns
  · intro o hbad
    cases hp : parseDailyWeather (.obj o) with
    | none => rfl
    | some d =>
      obtain ⟨kt, hmem, hns⟩ := hbad
      exact absurd (dailyWeatherF_required (show dailyWeatherF o = some d from hp) kt hmem) hns
  · intro o hbad
    cases hp : parseDailySeries (.obj o) with
    | none => rfl
    | some s =>
      obtain ⟨kt, hmem, hns⟩ := hbad
      exact absurd (dailyF_required (show dailyF o = some s from hp) kt hmem) hns
  · intro o hbad
    cases hp : parseAlerts (.obj o) with
    | none => rfl
    | some a =>
      obtain ⟨kt, hmem, hns⟩ := hbad
      exact absurd (alertsF_required (show alertsF o = some a from hp) kt hmem) hns
  · intro o hbad
    cases hp : parseFlags (.obj o) with
    | none => rfl
    | some f =>
      obtain ⟨kt, hmem, hns⟩ := hbad
      exact absurd (flagsF_required (show flagsF o = some f from hp) kt hmem) hns
  · intro o v hl hw
    cases hp : parseDarkskyResult (.obj o) with
    | none => rfl
    | some r =>
      obtain ⟨-, -, -, h4, -, -, -, -, -, -⟩ :=
        darkskyF_eq_some (show darkskyF o = some r from hp)
      obtain ⟨v2, hl2, hv2⟩ := reqF_eq_some h4
      rw [hl] at hl2
      obtain rfl : v = v2 := Option.some.inj hl2
      rw [hw] at hv2
      exact Option.noConfusion hv2
  · intro o v hl hw
    cases hp : parseDarkskyResult (.obj o) with
    | none => rfl
    | some r =>
      obtain ⟨-, -, -, -, -, h6, -, -, -, -⟩ :=
        darkskyF_eq_some (show darkskyF o = some r from hp)
      obtain ⟨v2, hl2, hv2⟩ := reqF_eq_some h6
      rw [hl] at hl2
      obtain rfl : v = v2 := Option.some.inj hl2
      rw [hw] at hv2
      exact Option.noConfusion hv2
  · intro o v hl hw
    cases hp : parseDarkskyResult (.obj o) with
    | none => rfl
    | some r =>
      obtain ⟨-, -, -, -, -, -, h7, -, -, -⟩ :=
        darkskyF_eq_some (show darkskyF o = some r from hp)
      obtain ⟨v2, hl2, hv2⟩ := reqF_eq_some h7
      rw [hl] at hl2
      obtain rfl : v = v2 := Option.some.inj hl2
      rw [hw] at hv2
      exact Option.noConfusion hv2
  · intro o v hl hw
    cases hp : parseDarkskyResult (.obj o) with
    | none => rfl
    | some r =>
      obtain ⟨-, -, -, -, -, -, -, -, h9, -⟩ :=
        darkskyF_eq_some (show darkskyF o = some r from hp)
      obtain ⟨v2, hl2, hv2⟩ := reqF_eq_some h9
      rw [hl] at hl2
      obtain rfl : v = v2 := Option.some.inj hl2
      rw [hw] at hv2
      exact Option.noConfusion hv2

/-- Witness for C4: the empty object payload (missing `latitude`) and a
payload whose `latitude` is a string both fail to parse. -/
theorem parse_rejects_missing_or_mistyped_required_fields_witness :
    parseDarkskyResult (.obj []) = none ∧
    parseDarkskyResult (.obj [("latitude", .str "x")]) = none := by
  constructor
  · exact parse_rejects_missing_or_mistyped_required_fields.1 []
      ⟨("latitude", .jnum), by decide,
       fun hx => by obtain ⟨v, hv, -⟩ := hx; exact Option.noConfusion hv⟩
  · exact parse_rejects_missing_or_mistyped_required_fields.1 _
      ⟨("latitude", .jnum), by decide,
       fun hx => by
        obtain ⟨v, hv, hs⟩ := hx
        obtain rfl : Json.str "x" = v := Option.some.inj hv
        exact Bool.noConfusion hs⟩

/-- C5 (amended): for every wire payload that parses, re-serialization
agrees with the input value-for-value at every schema field — required leaf
fields carry the identical JSON value, nested objects and series elements
agree recursively on their schema fields, and present non-null optional
fields round-trip — but an optional field absent (or `null`) in the input is
re-serialized as an explicit `null` field rather than left absent. -/
theorem parse_then_serialize_agrees (j : Json) (r : DarkskyResult)
    (h : parseDarkskyResult j = some r) :
    ∃ oIn, j = .obj oIn ∧ serMatchesDarksky (serFieldsDarksky r) oIn := by
  obtain ⟨o, rfl, hF⟩ := objP_eq_some h
  obtain ⟨h1, h2, h3, h4, h5, h6, h7, h8, h9, h10⟩ := darkskyF_eq_some hF
  refine ⟨o, rfl, ?_, ?_, ?_, ?_, ?_, ?_, ?_, ?_, ?_, ?_⟩
  · exact eqAt_req (fun _ _ hh => jDec_eq_some hh) h1 rfl
  · exact eqAt_req (fun _ _ hh => jDec_eq_some hh) h2 rfl
  · exact eqAt_req (fun _ _ hh => jStr_eq_some hh) h3 rfl
  · exact reqObjRT_of_reqF (fun _ _ ha => weather_rt ha) h4 rfl
  · exact optObjRT_of_optF (fun _ _ ha => minutely_rt ha) h5 rfl
  · exact reqObjRT_of_reqF (fun _ _ ha => hourly_rt ha) h6 rfl
  · exact reqObjRT_of_reqF (fun _ _ ha => daily_rt ha) h7 rfl
  · exact optObjRT_of_optF
      (fun _ _ ha => arrMatch_of_jList (fun _ _ hx => alerts_rt hx) ha) h8 rfl
  · exact reqObjRT_of_reqF (fun _ _ ha => flags_rt ha) h9 rfl
  · exact eqAt_req (fun _ _ hh => jInt8_eq_some hh) h10 rfl

/-- Witness for C5 at a concrete payload: the serialized form of `exResult`
parses back to `exResult` and its re-serialization agrees with it. -/
theorem parse_then_serialize_agrees_witness :
    parseDarkskyResult (serializeDarkskyResult exResult) = some exResult ∧
    ∃ oIn, serializeDarkskyResult exResult = .obj oIn ∧
      serMatchesDarksky (serFieldsDarksky exResult) oIn :=
  ⟨by decide, parse_then_serialize_agrees _ _ (by decide)⟩

/-- Counterexample to C5 as stated: in `jNoMinutely` the optional `minutely`
field is absent, the payload parses, and the re-serialized output carries
`minutely` as an explicit `null` — the absent field does not remain absent. -/
theorem absent_optional_reserialized_as_null :
    (lookupJ (topFields jNoMinutely) "minutely").isNone = true ∧
    ((parseDarkskyResult jNoMinutely).map
      (fun r => isNullAt (serFieldsDarksky r) "minutely")) = some true := by
  decide

end Dsky
